import Mathlib

/-!
Shallow embedding of the `ryst` OpenAI client SDK (crates `ryst_openai`,
`ryst_error`) and proofs about its request validation, transport error
classification, streaming response decoder, and log-probability flattening.

Conventions of the embedding:
* Rust `f32` payloads are carried as `Rat`; no arithmetic is ever performed
  on them by the code under study, they are opaque payloads.
* Rust `i8`/`i32` payloads are carried as `Int` (never computed with).
* `HashMap` values (logit bias, log probabilities) are association lists;
  `HashMap` observations are made through a lookup function.
* Byte strings (`Bytes`) are `List Nat` of byte values; all constant byte
  strings in the source are ASCII, so `Char.toNat` on the characters of a
  Lean string literal gives exactly the UTF-8 bytes.
* The environment (`std::env::var`) is an explicit `Env` record.
* The network (`reqwest`) is an explicit oracle `SendOutcome` describing
  what `send()` would return; an operation's embedding also reports the
  request it sent (if it reached `send()`), so that "before any network
  call" is the statement `sent = none`.
* `serde_json` deserialization of response documents is an explicit
  function parameter `parse`, since serde is an external collaborator;
  the decoder logic under study is independent of it.
-/

/-- Error wrapper from the `ryst_error` crate: built either from an
underlying source error or from a message. -/
inductive InternalError (ε : Type) where
  | fromSource (source : ε)
  | withMessage (message : String)
deriving DecidableEq

/-- Error wrapper from the `ryst_error` crate: an argument name and a
message, as built by `InvalidArgumentError::new`. -/
structure InvalidArgumentError where
  argument : String
  message : String
deriving DecidableEq

/-- Error wrapper from the `ryst_error` crate, as built by
`InvalidStateError::with_message`. -/
structure InvalidStateError where
  message : String
deriving DecidableEq

/-- `OpenAIError` from `src/openai/src/error.rs`: the three-way error
taxonomy of the SDK.  `ε` is the transport error type (`reqwest::Error`),
kept abstract. -/
inductive OpenAIError (ε : Type) where
  | Internal (e : InternalError ε)
  | InvalidArgument (e : InvalidArgumentError)
  | InvalidState (e : InvalidStateError)
deriving DecidableEq

/-- JSON values, used to model the serde-serialized request body. -/
inductive JsonVal where
  | str (s : String)
  | num (q : Rat)
  | bool (b : Bool)
  | arr (xs : List JsonVal)
  | obj (fields : List (String × JsonVal))

/-- The process environment read by the SDK: `OPENAI_API_KEY` (required)
and `OPENAI_API_ORG` (optional). -/
structure Env where
  apiKey : Option String
  apiOrg : Option String

/-- The outgoing HTTP request assembled by the reqwest builder calls:
URL, headers, and the JSON body attached by `.json(&self)`. -/
structure HttpRequest where
  url : String
  headers : List (String × String)
  body : List (String × JsonVal)

/-- Oracle for what `request.send().await` would produce: either a
response (status code, body text, and the body's byte-chunk stream view)
or a transport-level failure carrying a `reqwest::Error` of type `ε`. -/
inductive SendOutcome (ε : Type) where
  | response (status : Nat) (body : String) (chunks : List (Except ε (List Nat)))
  | failure (e : ε)

/-- Result of one terminal operation (`submit` or `stream`): the returned
`Result`, plus the request handed to `send()` when the operation reached
the network (`none` means no network call occurred). -/
structure CallOutcome (ε ρ : Type) where
  result : Except (OpenAIError ε) ρ
  sent : Option HttpRequest

/-- `OPEN_AI_URL` from `src/openai/src/lib.rs`. -/
def OPEN_AI_URL : String := "https://api.openai.com"

/-- `StatusCode::is_success`: 2xx. -/
def isSuccessStatus (s : Nat) : Bool := 200 ≤ s && s ≤ 299

/-- `StatusCode::is_client_error`: 4xx. -/
def isClientErrorStatus (s : Nat) : Bool := 400 ≤ s && s ≤ 499

/-- `Message` from `src/openai/src/chat_completion/request.rs`. -/
structure Message where
  role : String
  content : String
deriving DecidableEq

/-- `Message::new`. -/
def Message.new (role content : String) : Message :=
  { role := role, content := content }

/-- `CompletionRequest` from `src/openai/src/completion/request.rs`:
the builder's fields, all optional fields defaulting to `None`. -/
structure CompletionRequest where
  model : String := ""
  prompt : String := ""
  suffix : Option String := none
  max_tokens : Option Int := none
  temperature : Option Rat := none
  top_p : Option Rat := none
  n : Option Int := none
  stream : Option Bool := none
  logprobs : Option Int := none
  echo : Option Bool := none
  stop : Option (List String) := none
  presence_penalty : Option Rat := none
  frequency_penalty : Option Rat := none
  best_of : Option Int := none
  logit_bias : Option (List (String × Int)) := none
  user : Option String := none

/-- `CompletionRequest::new`: model and prompt, everything else default. -/
def CompletionRequest.new (model prompt : String) : CompletionRequest :=
  { model := model, prompt := prompt }

/-- `ChatCompletionRequest` from `src/openai/src/chat_completion/request.rs`. -/
structure ChatCompletionRequest where
  model : String := ""
  messages : List Message := []
  temperature : Option Rat := none
  top_p : Option Rat := none
  n : Option Int := none
  stream : Option Bool := none
  stop : Option (List String) := none
  max_tokens : Option Int := none
  presence_penalty : Option Rat := none
  frequency_penalty : Option Rat := none
  logit_bias : Option (List (String × Int)) := none
  user : Option String := none

/-- `ChatCompletionRequest::new`. -/
def ChatCompletionRequest.new (model : String) (messages : List Message) :
    ChatCompletionRequest :=
  { model := model, messages := messages }

/-- One optional serde field: emitted as a single key/value pair when
present, omitted entirely when `None` (`skip_serializing_if = "Option::is_none"`). -/
def optField (name : String) (v : Option JsonVal) : List (String × JsonVal) :=
  match v with
  | some j => [(name, j)]
  | none => []

/-- serde serialization of `CompletionRequest` (derived `Serialize`):
fields in declaration order, absent optionals omitted. -/
def serializeCompletionRequest (r : CompletionRequest) : List (String × JsonVal) :=
  [("model", JsonVal.str r.model), ("prompt", JsonVal.str r.prompt)]
    ++ optField "suffix" (r.suffix.map JsonVal.str)
    ++ optField "max_tokens" (r.max_tokens.map fun i => JsonVal.num (i : Rat))
    ++ optField "temperature" (r.temperature.map JsonVal.num)
    ++ optField "top_p" (r.top_p.map JsonVal.num)
    ++ optField "n" (r.n.map fun i => JsonVal.num (i : Rat))
    ++ optField "stream" (r.stream.map JsonVal.bool)
    ++ optField "logprobs" (r.logprobs.map fun i => JsonVal.num (i : Rat))
    ++ optField "echo" (r.echo.map JsonVal.bool)
    ++ optField "stop" (r.stop.map fun ss => JsonVal.arr (ss.map JsonVal.str))
    ++ optField "presence_penalty" (r.presence_penalty.map JsonVal.num)
    ++ optField "frequency_penalty" (r.frequency_penalty.map JsonVal.num)
    ++ optField "best_of" (r.best_of.map fun i => JsonVal.num (i : Rat))
    ++ optField "logit_bias"
        (r.logit_bias.map fun m => JsonVal.obj (m.map fun kv => (kv.1, JsonVal.num (kv.2 : Rat))))
    ++ optField "user" (r.user.map JsonVal.str)

/-- serde serialization of `Message`. -/
def serializeMessage (m : Message) : JsonVal :=
  JsonVal.obj [("role", JsonVal.str m.role), ("content", JsonVal.str m.content)]

/-- serde serialization of `ChatCompletionRequest` (derived `Serialize`). -/
def serializeChatCompletionRequest (r : ChatCompletionRequest) :
    List (String × JsonVal) :=
  [("model", JsonVal.str r.model),
   ("messages", JsonVal.arr (r.messages.map serializeMessage))]
    ++ optField "temperature" (r.temperature.map JsonVal.num)
    ++ optField "top_p" (r.top_p.map JsonVal.num)
    ++ optField "n" (r.n.map fun i => JsonVal.num (i : Rat))
    ++ optField "stream" (r.stream.map JsonVal.bool)
    ++ optField "stop" (r.stop.map fun ss => JsonVal.arr (ss.map JsonVal.str))
    ++ optField "max_tokens" (r.max_tokens.map fun i => JsonVal.num (i : Rat))
    ++ optField "presence_penalty" (r.presence_penalty.map JsonVal.num)
    ++ optField "frequency_penalty" (r.frequency_penalty.map JsonVal.num)
    ++ optField "logit_bias"
        (r.logit_bias.map fun m => JsonVal.obj (m.map fun kv => (kv.1, JsonVal.num (kv.2 : Rat))))
    ++ optField "user" (r.user.map JsonVal.str)

/-- Whether a serialized body contains a field of the given name. -/
def bodyHasField (body : List (String × JsonVal)) (name : String) : Bool :=
  body.any fun p => p.1 == name

/-- `CompletionRequest::with_suffix`. -/
def CompletionRequest.with_suffix (r : CompletionRequest) (suffix : String) :
    CompletionRequest := { r with suffix := some suffix }

/-- `CompletionRequest::with_max_tokens`. -/
def CompletionRequest.with_max_tokens (r : CompletionRequest) (max_tokens : Int) :
    CompletionRequest := { r with max_tokens := some max_tokens }

/-- `CompletionRequest::with_temperature`. -/
def CompletionRequest.with_temperature (r : CompletionRequest) (temperature : Rat) :
    CompletionRequest := { r with temperature := some temperature }

/-- `CompletionRequest::with_top_p`. -/
def CompletionRequest.with_top_p (r : CompletionRequest) (top_p : Rat) :
    CompletionRequest := { r with top_p := some top_p }

/-- `CompletionRequest::with_n`. -/
def CompletionRequest.with_n (r : CompletionRequest) (n : Int) :
    CompletionRequest := { r with n := some n }

/-- `CompletionRequest::with_logprobs`. -/
def CompletionRequest.with_logprobs (r : CompletionRequest) (logprobs : Int) :
    CompletionRequest := { r with logprobs := some logprobs }

/-- `CompletionRequest::with_echo`. -/
def CompletionRequest.with_echo (r : CompletionRequest) (echo : Bool) :
    CompletionRequest := { r with echo := some echo }

/-- `CompletionRequest::with_stop`: a single stop sequence. -/
def CompletionRequest.with_stop (r : CompletionRequest) (stop : String) :
    CompletionRequest := { r with stop := some [stop] }

/-- `CompletionRequest::with_stops`. -/
def CompletionRequest.with_stops (r : CompletionRequest) (stop : List String) :
    CompletionRequest := { r with stop := some stop }

/-- `CompletionRequest::with_presence_penalty`. -/
def CompletionRequest.with_presence_penalty (r : CompletionRequest) (p : Rat) :
    CompletionRequest := { r with presence_penalty := some p }

/-- `CompletionRequest::with_frequency_penalty`. -/
def CompletionRequest.with_frequency_penalty (r : CompletionRequest) (p : Rat) :
    CompletionRequest := { r with frequency_penalty := some p }

/-- `CompletionRequest::with_best_of`. -/
def CompletionRequest.with_best_of (r : CompletionRequest) (best_of : Int) :
    CompletionRequest := { r with best_of := some best_of }

/-- `CompletionRequest::with_logit_bias`. -/
def CompletionRequest.with_logit_bias (r : CompletionRequest)
    (logit_bias : List (String × Int)) : CompletionRequest :=
  { r with logit_bias := some logit_bias }

/-- `CompletionRequest::with_user`. -/
def CompletionRequest.with_user (r : CompletionRequest) (user : String) :
    CompletionRequest := { r with user := some user }

/-- `ChatCompletionRequest::with_max_tokens`. -/
def ChatCompletionRequest.with_max_tokens (r : ChatCompletionRequest) (m : Int) :
    ChatCompletionRequest := { r with max_tokens := some m }

/-- `ChatCompletionRequest::with_temperature`. -/
def ChatCompletionRequest.with_temperature (r : ChatCompletionRequest) (t : Rat) :
    ChatCompletionRequest := { r with temperature := some t }

/-- `ChatCompletionRequest::with_top_p`. -/
def ChatCompletionRequest.with_top_p (r : ChatCompletionRequest) (t : Rat) :
    ChatCompletionRequest := { r with top_p := some t }

/-- `ChatCompletionRequest::with_n`. -/
def ChatCompletionRequest.with_n (r : ChatCompletionRequest) (n : Int) :
    ChatCompletionRequest := { r with n := some n }

/-- `ChatCompletionRequest::with_stop`. -/
def ChatCompletionRequest.with_stop (r : ChatCompletionRequest) (stop : String) :
    ChatCompletionRequest := { r with stop := some [stop] }

/-- `ChatCompletionRequest::with_stops`. -/
def ChatCompletionRequest.with_stops (r : ChatCompletionRequest) (stop : List String) :
    ChatCompletionRequest := { r with stop := some stop }

/-- `ChatCompletionRequest::with_presence_penalty`. -/
def ChatCompletionRequest.with_presence_penalty (r : ChatCompletionRequest) (p : Rat) :
    ChatCompletionRequest := { r with presence_penalty := some p }

/-- `ChatCompletionRequest::with_frequency_penalty`. -/
def ChatCompletionRequest.with_frequency_penalty (r : ChatCompletionRequest) (p : Rat) :
    ChatCompletionRequest := { r with frequency_penalty := some p }

/-- `ChatCompletionRequest::with_logit_bias`. -/
def ChatCompletionRequest.with_logit_bias (r : ChatCompletionRequest)
    (b : List (String × Int)) : ChatCompletionRequest :=
  { r with logit_bias := some b }

/-- `ChatCompletionRequest::with_user`. -/
def ChatCompletionRequest.with_user (r : ChatCompletionRequest) (user : String) :
    ChatCompletionRequest := { r with user := some user }

/-- Builder states reachable through the public API of `CompletionRequest`
(`new` followed by any sequence of `with_*` setters). -/
inductive CompletionReachable : CompletionRequest → Prop where
  | new (model prompt : String) : CompletionReachable (CompletionRequest.new model prompt)
  | with_suffix (r s) : CompletionReachable r → CompletionReachable (r.with_suffix s)
  | with_max_tokens (r m) : CompletionReachable r → CompletionReachable (r.with_max_tokens m)
  | with_temperature (r t) : CompletionReachable r → CompletionReachable (r.with_temperature t)
  | with_top_p (r t) : CompletionReachable r → CompletionReachable (r.with_top_p t)
  | with_n (r n) : CompletionReachable r → CompletionReachable (r.with_n n)
  | with_logprobs (r l) : CompletionReachable r → CompletionReachable (r.with_logprobs l)
  | with_echo (r e) : CompletionReachable r → CompletionReachable (r.with_echo e)
  | with_stop (r s) : CompletionReachable r → CompletionReachable (r.with_stop s)
  | with_stops (r s) : CompletionReachable r → CompletionReachable (r.with_stops s)
  | with_presence_penalty (r p) :
      CompletionReachable r → CompletionReachable (r.with_presence_penalty p)
  | with_frequency_penalty (r p) :
      CompletionReachable r → CompletionReachable (r.with_frequency_penalty p)
  | with_best_of (r b) : CompletionReachable r → CompletionReachable (r.with_best_of b)
  | with_logit_bias (r b) : CompletionReachable r → CompletionReachable (r.with_logit_bias b)
  | with_user (r u) : CompletionReachable r → CompletionReachable (r.with_user u)

/-- Builder states reachable through the public API of
`ChatCompletionRequest`. -/
inductive ChatCompletionReachable : ChatCompletionRequest → Prop where
  | new (model : String) (messages : List Message) :
      ChatCompletionReachable (ChatCompletionRequest.new model messages)
  | with_max_tokens (r m) :
      ChatCompletionReachable r → ChatCompletionReachable (r.with_max_tokens m)
  | with_temperature (r t) :
      ChatCompletionReachable r → ChatCompletionReachable (r.with_temperature t)
  | with_top_p (r t) : ChatCompletionReachable r → ChatCompletionReachable (r.with_top_p t)
  | with_n (r n) : ChatCompletionReachable r → ChatCompletionReachable (r.with_n n)
  | with_stop (r s) : ChatCompletionReachable r → ChatCompletionReachable (r.with_stop s)
  | with_stops (r s) : ChatCompletionReachable r → ChatCompletionReachable (r.with_stops s)
  | with_presence_penalty (r p) :
      ChatCompletionReachable r → ChatCompletionReachable (r.with_presence_penalty p)
  | with_frequency_penalty (r p) :
      ChatCompletionReachable r → ChatCompletionReachable (r.with_frequency_penalty p)
  | with_logit_bias (r b) :
      ChatCompletionReachable r → ChatCompletionReachable (r.with_logit_bias b)
  | with_user (r u) : ChatCompletionReachable r → ChatCompletionReachable (r.with_user u)

/-- `CompletionUsage` from `src/openai/src/completion/response.rs`. -/
structure CompletionUsage where
  prompt_tokens : Int
  completion_tokens : Int
  total_tokens : Int

/-- `Logprobs` from `src/openai/src/completion/response.rs`; the
`top_logprobs` map is the flattening decoder's output, modelled as an
association list observed through `mapLookup`. -/
structure Logprobs where
  tokens : List String
  token_logprobs : List Rat
  top_logprobs : List (String × Rat)
  text_offset : List Int

/-- `CompletionChoice` from `src/openai/src/completion/response.rs`. -/
structure CompletionChoice where
  text : String
  index : Int
  logprobs : Option Logprobs
  finish_reason : String

/-- `CompletionResponse` from `src/openai/src/completion/response.rs`. -/
structure CompletionResponse where
  id : String
  object : String
  created : Int
  model : String
  choices : List CompletionChoice
  usage : CompletionUsage

/-- `ChatUsage` from `src/openai/src/chat_completion/response.rs`. -/
structure ChatUsage where
  prompt_tokens : Int
  completion_tokens : Int
  total_tokens : Int

/-- `ChatChoice` from `src/openai/src/chat_completion/response.rs`. -/
structure ChatChoice where
  message : Message
  index : Int
  finish_reason : String

/-- `ChatCompletionResponse` from `src/openai/src/chat_completion/response.rs`. -/
structure ChatCompletionResponse where
  id : String
  object : String
  created : Int
  model : String
  choices : List ChatChoice
  usage : ChatUsage

/-- Observation of the association-list model of `HashMap<String, f32>`:
the value stored at a key, if any. -/
def mapLookup (m : List (String × Rat)) (k : String) : Option Rat :=
  (m.find? fun p => p.1 == k).map Prod.snd

/-- `HashMap::insert` on the association-list model: overwrite the key's
entry if present, add it otherwise. -/
def mapInsert (m : List (String × Rat)) (k : String) (v : Rat) : List (String × Rat) :=
  (k, v) :: m.filter fun p => p.1 != k

/-- The inner loop of the `visit_seq` of `flatten_log_probs`: insert every
key/value pair of one deserialized map into the accumulating map. -/
def insertAll (acc : List (String × Rat)) (m : List (String × Rat)) :
    List (String × Rat) :=
  m.foldl (fun r kv => mapInsert r kv.1 kv.2) acc

/-- `flatten_log_probs` from `src/openai/src/completion/response.rs`:
starting from an empty map, visit the deserialized sequence of maps in
order and insert every key/value pair of each. -/
def flatten_log_probs (seq : List (List (String × Rat))) : List (String × Rat) :=
  seq.foldl insertAll []

/-- First-defined alternative on options (explicit form of `orElse`). -/
def orElseO (a b : Option Rat) : Option Rat :=
  match a with
  | some v => some v
  | none => b

/-- Byte values of an ASCII string literal (UTF-8 of an ASCII string is
its character codes), modelling `str::as_bytes`. -/
def strBytes (s : String) : List Nat := s.toList.map Char.toNat

/-- `STREAM_TERMINATION_STRING` defined identically in
`src/openai/src/completion/response.rs` and
`src/openai/src/chat_completion/response.rs`. -/
def STREAM_TERMINATION_STRING : String := "[DONE]"

/-- The drain loop shared verbatim by `CompletionResponseStream::next` and
`ChatCompletionResponseStream::next`: pull items from the underlying byte
stream until it ends; a chunk equal to the sentinel is skipped, any other
chunk is appended to `full_bytes`; a stream error aborts immediately with
`Internal`; after the stream ends, an empty buffer gives `Ok(None)` and a
non-empty buffer is deserialized (`parse`), deserialization failure giving
`InvalidState` with the parser message.  The second component is what
remains of the underlying stream afterwards. -/
def responseStreamNext (parse : List Nat → Except String ρ) :
    List (Except ε (List Nat)) → List Nat →
    Except (OpenAIError ε) (Option ρ) × List (Except ε (List Nat))
  | [], full_bytes =>
    (if full_bytes.isEmpty then Except.ok none
     else
       match parse full_bytes with
       | Except.ok r => Except.ok (some r)
       | Except.error err =>
           Except.error (OpenAIError.InvalidState ⟨err⟩), [])
  | Except.ok bytes :: rest, full_bytes =>
    responseStreamNext parse rest
      (if bytes = strBytes STREAM_TERMINATION_STRING then full_bytes
       else full_bytes ++ bytes)
  | Except.error e :: rest, _ =>
    (Except.error (OpenAIError.Internal (InternalError.fromSource e)), rest)

/-- `CompletionResponseStream` from `src/openai/src/completion/response.rs`:
owns the underlying byte stream, modelled as the list of items it will
still deliver. -/
structure CompletionResponseStream (ε : Type) where
  stream : List (Except ε (List Nat))

/-- `CompletionResponseStream::new`. -/
def CompletionResponseStream.new (s : List (Except ε (List Nat))) :
    CompletionResponseStream ε := ⟨s⟩

/-- `CompletionResponseStream::next`, with the post-call stream state made
explicit in the second component. -/
def CompletionResponseStream.next
    (parse : List Nat → Except String CompletionResponse)
    (s : CompletionResponseStream ε) :
    Except (OpenAIError ε) (Option CompletionResponse) × CompletionResponseStream ε :=
  let r := responseStreamNext parse s.stream []
  (r.1, ⟨r.2⟩)

/-- `ChatCompletionResponseStream` from
`src/openai/src/chat_completion/response.rs`. -/
structure ChatCompletionResponseStream (ε : Type) where
  stream : List (Except ε (List Nat))

/-- `ChatCompletionResponseStream::new`. -/
def ChatCompletionResponseStream.new (s : List (Except ε (List Nat))) :
    ChatCompletionResponseStream ε := ⟨s⟩

/-- `ChatCompletionResponseStream::next`, with the post-call stream state
made explicit in the second component. -/
def ChatCompletionResponseStream.next
    (parse : List Nat → Except String ChatCompletionResponse)
    (s : ChatCompletionResponseStream ε) :
    Except (OpenAIError ε) (Option ChatCompletionResponse) × ChatCompletionResponseStream ε :=
  let r := responseStreamNext parse s.stream []
  (r.1, ⟨r.2⟩)

/-- The buffer a full error-free drain accumulates: every chunk that is
not byte-for-byte the sentinel, concatenated in delivery order. -/
def drainedBuffer (chunks : List (List Nat)) : List Nat :=
  (chunks.filter fun c => c ≠ strBytes STREAM_TERMINATION_STRING).flatten

/-- The post-drain step of the decoder: empty buffer means "no response";
otherwise deserialize, turning a parse error into `InvalidState`. -/
def decodeBuffer (parse : List Nat → Except String ρ) (buf : List Nat) :
    Except (OpenAIError ε) (Option ρ) :=
  if buf.isEmpty then Except.ok none
  else
    match parse buf with
    | Except.ok r => Except.ok (some r)
    | Except.error err => Except.error (OpenAIError.InvalidState ⟨err⟩)

/-- The stop-sequence validation shared by all four terminal operations:
more than 4 configured stop sequences is rejected. -/
def tooManyStops (stop : Option (List String)) : Bool :=
  match stop with
  | some stops => 4 < stops.length
  | none => false

/-- The headers attached by the reqwest builder calls in all four terminal
operations: bearer auth, content type, and the optional organization
header when `OPENAI_API_ORG` is present. -/
def buildHeaders (api_key : String) (org : Option String) : List (String × String) :=
  [("Authorization", "Bearer " ++ api_key), ("Content-Type", "application/json")]
    ++ match org with
       | some o => [("OpenAI-Organization", o)]
       | none => []

/-- Whether a result is an `InvalidArgument` failure. -/
def isInvalidArgument (r : Except (OpenAIError ε) ρ) : Bool :=
  match r with
  | Except.error (OpenAIError.InvalidArgument _) => true
  | _ => false

/-- The outgoing request assembled by both completion terminal operations
before validation: completions endpoint, auth headers, serialized body. -/
def completionHttpRequest (r : CompletionRequest) (api_key : String)
    (org : Option String) : HttpRequest :=
  { url := OPEN_AI_URL ++ "/v1/completions"
    headers := buildHeaders api_key org
    body := serializeCompletionRequest r }

/-- The outgoing request assembled by both chat-completion terminal
operations before validation. -/
def chatHttpRequest (r : ChatCompletionRequest) (api_key : String)
    (org : Option String) : HttpRequest :=
  { url := OPEN_AI_URL ++ "/v1/chat/completions"
    headers := buildHeaders api_key org
    body := serializeChatCompletionRequest r }

/-- `CompletionRequest::submit` from `src/openai/src/completion/request.rs`:
read the API key (missing key is `InvalidState`), assemble the request with
the JSON body of `self`, validate stop count, temperature/top_p exclusivity
and the stream flag, then send and classify the response status. -/
def CompletionRequest.submit (self : CompletionRequest) (env : Env)
    (parse : String → Except String CompletionResponse)
    (net : SendOutcome ε) : CallOutcome ε CompletionResponse :=
  match env.apiKey with
  | none =>
    ⟨Except.error (OpenAIError.InvalidState
        ⟨"OPENAI_API_KEY env variable must be set"⟩), none⟩
  | some api_key =>
    let request : HttpRequest := completionHttpRequest self api_key env.apiOrg
    if tooManyStops self.stop then
      ⟨Except.error (OpenAIError.InvalidArgument
          ⟨"stop", "You can only provide up to 4 stop sequences"⟩), none⟩
    else if self.temperature.isSome && self.top_p.isSome then
      ⟨Except.error (OpenAIError.InvalidArgument
          ⟨"temperature", "Use temperature or top_p but not both"⟩), none⟩
    else if self.stream = some true then
      ⟨Except.error (OpenAIError.InvalidArgument
          ⟨"stream", "Use stream() instead of submit"⟩), none⟩
    else
      match net with
      | SendOutcome.response status body _chunks =>
        if isSuccessStatus status then
          ⟨match parse body with
           | Except.ok r => Except.ok r
           | Except.error err =>
               Except.error (OpenAIError.InvalidState ⟨err⟩), some request⟩
        else if isClientErrorStatus status then
          ⟨Except.error (OpenAIError.InvalidArgument ⟨"request", body⟩), some request⟩
        else
          ⟨Except.error (OpenAIError.Internal (InternalError.withMessage body)),
           some request⟩
      | SendOutcome.failure e =>
        ⟨Except.error (OpenAIError.Internal (InternalError.fromSource e)), some request⟩

/-- `CompletionRequest::stream` from `src/openai/src/completion/request.rs`
(named `streamOp` here because the builder field `stream` already takes
that name): same as `submit` except that there is no stream-flag check,
`self.stream` is mutated to `Some(true)` only after the body was attached,
and a 2xx response yields the response byte stream as a handle. -/
def CompletionRequest.streamOp (self : CompletionRequest) (env : Env)
    (net : SendOutcome ε) : CallOutcome ε (CompletionResponseStream ε) :=
  match env.apiKey with
  | none =>
    ⟨Except.error (OpenAIError.InvalidState
        ⟨"OPENAI_API_KEY env variable must be set"⟩), none⟩
  | some api_key =>
    let request : HttpRequest := completionHttpRequest self api_key env.apiOrg
    if tooManyStops self.stop then
      ⟨Except.error (OpenAIError.InvalidArgument
          ⟨"stop", "You can only provide up to 4 stop sequences"⟩), none⟩
    else if self.temperature.isSome && self.top_p.isSome then
      ⟨Except.error (OpenAIError.InvalidArgument
          ⟨"temperature", "Use temperature or top_p but not both"⟩), none⟩
    else
      let self := { self with stream := some true }
      match net with
      | SendOutcome.response status body chunks =>
        if isSuccessStatus status then
          ⟨Except.ok (CompletionResponseStream.new chunks), some request⟩
        else if isClientErrorStatus status then
          ⟨Except.error (OpenAIError.InvalidArgument ⟨"request", body⟩), some request⟩
        else
          ⟨Except.error (OpenAIError.Internal (InternalError.withMessage body)),
           some request⟩
      | SendOutcome.failure e =>
        ⟨Except.error (OpenAIError.Internal (InternalError.fromSource e)), some request⟩

/-- `ChatCompletionRequest::submit` from
`src/openai/src/chat_completion/request.rs`: identical control flow to the
completion `submit`, against the chat endpoint and response type. -/
def ChatCompletionRequest.submit (self : ChatCompletionRequest) (env : Env)
    (parse : String → Except String ChatCompletionResponse)
    (net : SendOutcome ε) : CallOutcome ε ChatCompletionResponse :=
  match env.apiKey with
  | none =>
    ⟨Except.error (OpenAIError.InvalidState
        ⟨"OPENAI_API_KEY env variable must be set"⟩), none⟩
  | some api_key =>
    let request : HttpRequest := chatHttpRequest self api_key env.apiOrg
    if tooManyStops self.stop then
      ⟨Except.error (OpenAIError.InvalidArgument
          ⟨"stop", "You can only provide up to 4 stop sequences"⟩), none⟩
    else if self.temperature.isSome && self.top_p.isSome then
      ⟨Except.error (OpenAIError.InvalidArgument
          ⟨"temperature", "Use temperature or top_p but not both"⟩), none⟩
    else if self.stream = some true then
      ⟨Except.error (OpenAIError.InvalidArgument
          ⟨"stream", "Use stream() instead of submit"⟩), none⟩
    else
      match net with
      | SendOutcome.response status body _chunks =>
        if isSuccessStatus status then
          ⟨match parse body with
           | Except.ok r => Except.ok r
           | Except.error err =>
               Except.error (OpenAIError.InvalidState ⟨err⟩), some request⟩
        else if isClientErrorStatus status then
          ⟨Except.error (OpenAIError.InvalidArgument ⟨"request", body⟩), some request⟩
        else
          ⟨Except.error (OpenAIError.Internal (InternalError.withMessage body)),
           some request⟩
      | SendOutcome.failure e =>
        ⟨Except.error (OpenAIError.Internal (InternalError.fromSource e)), some request⟩

/-- `ChatCompletionRequest::stream` from
`src/openai/src/chat_completion/request.rs` (named `streamOp`, see the
completion counterpart): no stream-flag check, `self.stream` mutated to
`Some(true)` only after the body was attached, and a 2xx response yields
the response byte stream as a handle. -/
def ChatCompletionRequest.streamOp (self : ChatCompletionRequest) (env : Env)
    (net : SendOutcome ε) : CallOutcome ε (ChatCompletionResponseStream ε) :=
  match env.apiKey with
  | none =>
    ⟨Except.error (OpenAIError.InvalidState
        ⟨"OPENAI_API_KEY env variable must be set"⟩), none⟩
  | some api_key =>
    let request : HttpRequest := chatHttpRequest self api_key env.apiOrg
    if tooManyStops self.stop then
      ⟨Except.error (OpenAIError.InvalidArgument
          ⟨"stop", "You can only provide up to 4 stop sequences"⟩), none⟩
    else if self.temperature.isSome && self.top_p.isSome then
      ⟨Except.error (OpenAIError.InvalidArgument
          ⟨"temperature", "Use temperature or top_p but not both"⟩), none⟩
    else
      let self := { self with stream := some true }
      match net with
      | SendOutcome.response status body chunks =>
        if isSuccessStatus status then
          ⟨Except.ok (ChatCompletionResponseStream.new chunks), some request⟩
        else if isClientErrorStatus status then
          ⟨Except.error (OpenAIError.InvalidArgument ⟨"request", body⟩), some request⟩
        else
          ⟨Except.error (OpenAIError.Internal (InternalError.withMessage body)),
           some request⟩
      | SendOutcome.failure e =>
        ⟨Except.error (OpenAIError.Internal (InternalError.fromSource e)), some request⟩

theorem orElseO_assoc (a b c : Option Rat) :
    orElseO (orElseO a b) c = orElseO a (orElseO b c) := by
  cases a <;> rfl

theorem orElseO_none_right (a : Option Rat) : orElseO a none = a := by
  cases a <;> rfl

theorem find?_filter_ne (m : List (String × Rat)) (k k' : String) (h : k' ≠ k) :
    ((m.filter fun p => p.1 != k).find? fun p => p.1 == k')
      = m.find? fun p => p.1 == k' := by
  induction m with
  | nil => rfl
  | cons a t ih =>
    have h3 : (k == k') = false := by
      simp only [beq_eq_false_iff_ne, ne_eq]
      exact fun hkk => h hkk.symm
    by_cases hk : a.1 = k
    · simp [List.filter_cons, List.find?_cons, hk, h3, ih]
    · by_cases hk' : a.1 = k'
      · simp [List.filter_cons, List.find?_cons, hk, hk', h]
      · simp [List.filter_cons, List.find?_cons, hk, hk', ih]

theorem mapLookup_insert (m : List (String × Rat)) (k v k') :
    mapLookup (mapInsert m k v) k' = if k' = k then some v else mapLookup m k' := by
  by_cases h : k' = k
  · simp [mapLookup, mapInsert, List.find?_cons, h]
  · have hk : (k == k') = false := by
      simp only [beq_eq_false_iff_ne, ne_eq]
      exact fun hkk => h hkk.symm
    simp [mapLookup, mapInsert, List.find?_cons, hk, h, find?_filter_ne m k k' h]

theorem mapLookup_eq_none_of_not_mem (m : List (String × Rat)) (k : String)
    (h : k ∉ m.map Prod.fst) : mapLookup m k = none := by
  induction m with
  | nil => rfl
  | cons a t ih =>
    simp only [List.map_cons, List.mem_cons, not_or] at h
    have h1 : (a.1 == k) = false := by
      simp only [beq_eq_false_iff_ne, ne_eq]
      exact fun hkk => h.1 hkk.symm
    simp [mapLookup, List.find?_cons, h1]
    simpa [mapLookup] using ih h.2

theorem mapLookup_insertAll (m acc : List (String × Rat)) (k : String)
    (h : (m.map Prod.fst).Nodup) :
    mapLookup (insertAll acc m) k = orElseO (mapLookup m k) (mapLookup acc k) := by
  induction m generalizing acc with
  | nil => rfl
  | cons a t ih =>
    simp only [List.map_cons, List.nodup_cons] at h
    have step : insertAll acc (a :: t) = insertAll (mapInsert acc a.1 a.2) t := rfl
    rw [step, ih (mapInsert acc a.1 a.2) h.2]
    by_cases hk : k = a.1
    · subst hk
      have ht : mapLookup t a.1 = none :=
        mapLookup_eq_none_of_not_mem t a.1 h.1
      have hhead : mapLookup (a :: t) a.1 = some a.2 := by
        simp [mapLookup, List.find?_cons]
      simp [ht, hhead, mapLookup_insert, orElseO]
    · have h1 : (a.1 == k) = false := by
        simp only [beq_eq_false_iff_ne, ne_eq]
        exact fun hkk => hk hkk.symm
      have hhead : mapLookup (a :: t) k = mapLookup t k := by
        simp [mapLookup, List.find?_cons, h1]
      simp [hhead, mapLookup_insert, hk]

theorem findSome?_append_single (l : List (List (String × Rat)))
    (m : List (String × Rat)) (k : String) :
    ((l ++ [m]).findSome? fun x => mapLookup x k)
      = orElseO (l.findSome? fun x => mapLookup x k) (mapLookup m k) := by
  induction l with
  | nil => cases hm : mapLookup m k <;> simp [List.findSome?_cons, hm, orElseO]
  | cons x xs ih =>
    cases hx : mapLookup x k <;> simp [List.findSome?_cons, hx, orElseO, ih]

theorem mapLookup_foldl_insertAll (seq : List (List (String × Rat)))
    (acc : List (String × Rat)) (k : String)
    (h : ∀ m ∈ seq, (m.map Prod.fst).Nodup) :
    mapLookup (seq.foldl insertAll acc) k
      = orElseO (seq.reverse.findSome? fun m => mapLookup m k) (mapLookup acc k) := by
  induction seq generalizing acc with
  | nil => rfl
  | cons m rest ih =>
    have hm : (m.map Prod.fst).Nodup := h m (List.mem_cons_self m rest)
    have hrest : ∀ x ∈ rest, (x.map Prod.fst).Nodup := fun x hx =>
      h x (List.mem_cons_of_mem m hx)
    have step : (m :: rest).foldl insertAll acc = rest.foldl insertAll (insertAll acc m) :=
      rfl
    have hrev : (m :: rest).reverse = rest.reverse ++ [m] := by simp
    rw [step, ih (insertAll acc m) hrest, mapLookup_insertAll m acc k hm, hrev,
      findSome?_append_single, orElseO_assoc]

theorem responseStreamNext_okList (parse : List Nat → Except String ρ)
    (chunks : List (List Nat)) (acc : List Nat) :
    responseStreamNext (ε := ε) parse (chunks.map Except.ok) acc
      = (decodeBuffer parse (acc ++ drainedBuffer chunks), []) := by
  induction chunks generalizing acc with
  | nil => simp [responseStreamNext, drainedBuffer, decodeBuffer]
  | cons c rest ih =>
    by_cases h : c = strBytes STREAM_TERMINATION_STRING
    · simpa [responseStreamNext, h, drainedBuffer, List.filter_cons] using ih acc
    · have : drainedBuffer (c :: rest) = c ++ drainedBuffer rest := by
        simp [drainedBuffer, List.filter_cons, h]
      simp only [List.map_cons, responseStreamNext, if_neg h, this, ih,
        List.append_assoc]

theorem responseStreamNext_error (parse : List Nat → Except String ρ)
    (pre : List (List Nat)) (e : ε) (rest : List (Except ε (List Nat)))
    (acc : List Nat) :
    responseStreamNext parse (pre.map Except.ok ++ Except.error e :: rest) acc
      = (Except.error (OpenAIError.Internal (InternalError.fromSource e)), rest) := by
  induction pre generalizing acc with
  | nil => rfl
  | cons c t ih => simp [responseStreamNext, ih]

theorem CompletionRequest.submit_noKey (r : CompletionRequest) (o : Option String)
    (parse : String → Except String CompletionResponse) (net : SendOutcome ε) :
    r.submit ⟨none, o⟩ parse net
      = ⟨Except.error (OpenAIError.InvalidState
          ⟨"OPENAI_API_KEY env variable must be set"⟩), none⟩ := rfl

theorem CompletionRequest.submit_stops (r : CompletionRequest) (key : String)
    (o : Option String) (parse : String → Except String CompletionResponse)
    (net : SendOutcome ε) (h1 : tooManyStops r.stop = true) :
    r.submit ⟨some key, o⟩ parse net
      = ⟨Except.error (OpenAIError.InvalidArgument
          ⟨"stop", "You can only provide up to 4 stop sequences"⟩), none⟩ := by
  simp [CompletionRequest.submit, h1]

theorem CompletionRequest.submit_temp (r : CompletionRequest) (key : String)
    (o : Option String) (parse : String → Except String CompletionResponse)
    (net : SendOutcome ε) (h1 : tooManyStops r.stop = false)
    (h2 : (r.temperature.isSome && r.top_p.isSome) = true) :
    r.submit ⟨some key, o⟩ parse net
      = ⟨Except.error (OpenAIError.InvalidArgument
          ⟨"temperature", "Use temperature or top_p but not both"⟩), none⟩ := by
  simp [CompletionRequest.submit, h1, h2]

theorem CompletionRequest.submit_streamFlag (r : CompletionRequest) (key : String)
    (o : Option String) (parse : String → Except String CompletionResponse)
    (net : SendOutcome ε) (h1 : tooManyStops r.stop = false)
    (h2 : (r.temperature.isSome && r.top_p.isSome) = false)
    (h3 : r.stream = some true) :
    r.submit ⟨some key, o⟩ parse net
      = ⟨Except.error (OpenAIError.InvalidArgument
          ⟨"stream", "Use stream() instead of submit"⟩), none⟩ := by
  simp [CompletionRequest.submit, h1, h2, h3]

theorem CompletionRequest.submit_failure (r : CompletionRequest) (key : String)
    (o : Option String) (parse : String → Except String CompletionResponse)
    (e : ε) (h1 : tooManyStops r.stop = false)
    (h2 : (r.temperature.isSome && r.top_p.isSome) = false)
    (h3 : ¬ r.stream = some true) :
    r.submit ⟨some key, o⟩ parse (SendOutcome.failure e)
      = ⟨Except.error (OpenAIError.Internal (InternalError.fromSource e)),
         some (completionHttpRequest r key o)⟩ := by
  simp [CompletionRequest.submit, h1, h2, h3]

theorem CompletionRequest.submit_success (r : CompletionRequest) (key : String)
    (o : Option String) (parse : String → Except String CompletionResponse)
    (s : Nat) (b : String) (ch : List (Except ε (List Nat)))
    (h1 : tooManyStops r.stop = false)
    (h2 : (r.temperature.isSome && r.top_p.isSome) = false)
    (h3 : ¬ r.stream = some true) (hs : isSuccessStatus s = true) :
    r.submit ⟨some key, o⟩ parse (SendOutcome.response s b ch)
      = ⟨match parse b with
         | Except.ok v => Except.ok v
         | Except.error err => Except.error (OpenAIError.InvalidState ⟨err⟩),
         some (completionHttpRequest r key o)⟩ := by
  simp [CompletionRequest.submit, h1, h2, h3, hs]

theorem CompletionRequest.submit_clientError (r : CompletionRequest) (key : String)
    (o : Option String) (parse : String → Except String CompletionResponse)
    (s : Nat) (b : String) (ch : List (Except ε (List Nat)))
    (h1 : tooManyStops r.stop = false)
    (h2 : (r.temperature.isSome && r.top_p.isSome) = false)
    (h3 : ¬ r.stream = some true) (hs : isSuccessStatus s = false)
    (hc : isClientErrorStatus s = true) :
    r.submit ⟨some key, o⟩ parse (SendOutcome.response s b ch)
      = ⟨Except.error (OpenAIError.InvalidArgument ⟨"request", b⟩),
         some (completionHttpRequest r key o)⟩ := by
  simp [CompletionRequest.submit, h1, h2, h3, hs, hc]

theorem CompletionRequest.submit_otherError (r : CompletionRequest) (key : String)
    (o : Option String) (parse : String → Except String CompletionResponse)
    (s : Nat) (b : String) (ch : List (Except ε (List Nat)))
    (h1 : tooManyStops r.stop = false)
    (h2 : (r.temperature.isSome && r.top_p.isSome) = false)
    (h3 : ¬ r.stream = some true) (hs : isSuccessStatus s = false)
    (hc : isClientErrorStatus s = false) :
    r.submit ⟨some key, o⟩ parse (SendOutcome.response s b ch)
      = ⟨Except.error (OpenAIError.Internal (InternalError.withMessage b)),
         some (completionHttpRequest r key o)⟩ := by
  simp [CompletionRequest.submit, h1, h2, h3, hs, hc]

theorem CompletionRequest.streamOp_noKey (r : CompletionRequest) (o : Option String)
    (net : SendOutcome ε) :
    r.streamOp ⟨none, o⟩ net
      = ⟨Except.error (OpenAIError.InvalidState
          ⟨"OPENAI_API_KEY env variable must be set"⟩), none⟩ := rfl

theorem CompletionRequest.streamOp_stops (r : CompletionRequest) (key : String)
    (o : Option String) (net : SendOutcome ε) (h1 : tooManyStops r.stop = true) :
    r.streamOp ⟨some key, o⟩ net
      = ⟨Except.error (OpenAIError.InvalidArgument
          ⟨"stop", "You can only provide up to 4 stop sequences"⟩), none⟩ := by
  simp [CompletionRequest.streamOp, h1]

theorem CompletionRequest.streamOp_temp (r : CompletionRequest) (key : String)
    (o : Option String) (net : SendOutcome ε) (h1 : tooManyStops r.stop = false)
    (h2 : (r.temperature.isSome && r.top_p.isSome) = true) :
    r.streamOp ⟨some key, o⟩ net
      = ⟨Except.error (OpenAIError.InvalidArgument
          ⟨"temperature", "Use temperature or top_p but not both"⟩), none⟩ := by
  simp [CompletionRequest.streamOp, h1, h2]

theorem CompletionRequest.streamOp_failure (r : CompletionRequest) (key : String)
    (o : Option String) (e : ε) (h1 : tooManyStops r.stop = false)
    (h2 : (r.temperature.isSome && r.top_p.isSome) = false) :
    r.streamOp ⟨some key, o⟩ (SendOutcome.failure e)
      = ⟨Except.error (OpenAIError.Internal (InternalError.fromSource e)),
         some (completionHttpRequest r key o)⟩ := by
  simp [CompletionRequest.streamOp, h1, h2]

theorem CompletionRequest.streamOp_success (r : CompletionRequest) (key : String)
    (o : Option String) (s : Nat) (b : String) (ch : List (Except ε (List Nat)))
    (h1 : tooManyStops r.stop = false)
    (h2 : (r.temperature.isSome && r.top_p.isSome) = false)
    (hs : isSuccessStatus s = true) :
    r.streamOp ⟨some key, o⟩ (SendOutcome.response s b ch)
      = ⟨Except.ok (CompletionResponseStream.new ch),
         some (completionHttpRequest r key o)⟩ := by
  simp [CompletionRequest.streamOp, h1, h2, hs]

theorem CompletionRequest.streamOp_clientError (r : CompletionRequest) (key : String)
    (o : Option String) (s : Nat) (b : String) (ch : List (Except ε (List Nat)))
    (h1 : tooManyStops r.stop = false)
    (h2 : (r.temperature.isSome && r.top_p.isSome) = false)
    (hs : isSuccessStatus s = false) (hc : isClientErrorStatus s = true) :
    r.streamOp ⟨some key, o⟩ (SendOutcome.response s b ch)
      = ⟨Except.error (OpenAIError.InvalidArgument ⟨"request", b⟩),
         some (completionHttpRequest r key o)⟩ := by
  simp [CompletionRequest.streamOp, h1, h2, hs, hc]

theorem CompletionRequest.streamOp_otherError (r : CompletionRequest) (key : String)
    (o : Option String) (s : Nat) (b : String) (ch : List (Except ε (List Nat)))
    (h1 : tooManyStops r.stop = false)
    (h2 : (r.temperature.isSome && r.top_p.isSome) = false)
    (hs : isSuccessStatus s = false) (hc : isClientErrorStatus s = false) :
    r.streamOp ⟨some key, o⟩ (SendOutcome.response s b ch)
      = ⟨Except.error (OpenAIError.Internal (InternalError.withMessage b)),
         some (completionHttpRequest r key o)⟩ := by
  simp [CompletionRequest.streamOp, h1, h2, hs, hc]

theorem ChatCompletionRequest.chat_submit_noKey (r : ChatCompletionRequest)
    (o : Option String) (parse : String → Except String ChatCompletionResponse)
    (net : SendOutcome ε) :
    r.submit ⟨none, o⟩ parse net
      = ⟨Except.error (OpenAIError.InvalidState
          ⟨"OPENAI_API_KEY env variable must be set"⟩), none⟩ := rfl

theorem ChatCompletionRequest.chat_submit_stops (r : ChatCompletionRequest) (key : String)
    (o : Option String) (parse : String → Except String ChatCompletionResponse)
    (net : SendOutcome ε) (h1 : tooManyStops r.stop = true) :
    r.submit ⟨some key, o⟩ parse net
      = ⟨Except.error (OpenAIError.InvalidArgument
          ⟨"stop", "You can only provide up to 4 stop sequences"⟩), none⟩ := by
  simp [ChatCompletionRequest.submit, h1]

theorem ChatCompletionRequest.chat_submit_temp (r : ChatCompletionRequest) (key : String)
    (o : Option String) (parse : String → Except String ChatCompletionResponse)
    (net : SendOutcome ε) (h1 : tooManyStops r.stop = false)
    (h2 : (r.temperature.isSome && r.top_p.isSome) = true) :
    r.submit ⟨some key, o⟩ parse net
      = ⟨Except.error (OpenAIError.InvalidArgument
          ⟨"temperature", "Use temperature or top_p but not both"⟩), none⟩ := by
  simp [ChatCompletionRequest.submit, h1, h2]

theorem ChatCompletionRequest.chat_submit_streamFlag (r : ChatCompletionRequest)
    (key : String) (o : Option String)
    (parse : String → Except String ChatCompletionResponse)
    (net : SendOutcome ε) (h1 : tooManyStops r.stop = false)
    (h2 : (r.temperature.isSome && r.top_p.isSome) = false)
    (h3 : r.stream = some true) :
    r.submit ⟨some key, o⟩ parse net
      = ⟨Except.error (OpenAIError.InvalidArgument
          ⟨"stream", "Use stream() instead of submit"⟩), none⟩ := by
  simp [ChatCompletionRequest.submit, h1, h2, h3]

theorem ChatCompletionRequest.chat_submit_failure (r : ChatCompletionRequest)
    (key : String) (o : Option String)
    (parse : String → Except String ChatCompletionResponse)
    (e : ε) (h1 : tooManyStops r.stop = false)
    (h2 : (r.temperature.isSome && r.top_p.isSome) = false)
    (h3 : ¬ r.stream = some true) :
    r.submit ⟨some key, o⟩ parse (SendOutcome.failure e)
      = ⟨Except.error (OpenAIError.Internal (InternalError.fromSource e)),
         some (chatHttpRequest r key o)⟩ := by
  simp [ChatCompletionRequest.submit, h1, h2, h3]

theorem ChatCompletionRequest.chat_submit_success (r : ChatCompletionRequest)
    (key : String) (o : Option String)
    (parse : String → Except String ChatCompletionResponse)
    (s : Nat) (b : String) (ch : List (Except ε (List Nat)))
    (h1 : tooManyStops r.stop = false)
    (h2 : (r.temperature.isSome && r.top_p.isSome) = false)
    (h3 : ¬ r.stream = some true) (hs : isSuccessStatus s = true) :
    r.submit ⟨some key, o⟩ parse (SendOutcome.response s b ch)
      = ⟨match parse b with
         | Except.ok v => Except.ok v
         | Except.error err => Except.error (OpenAIError.InvalidState ⟨err⟩),
         some (chatHttpRequest r key o)⟩ := by
  simp [ChatCompletionRequest.submit, h1, h2, h3, hs]

theorem ChatCompletionRequest.chat_submit_clientError (r : ChatCompletionRequest)
    (key : String) (o : Option String)
    (parse : String → Except String ChatCompletionResponse)
    (s : Nat) (b : String) (ch : List (Except ε (List Nat)))
    (h1 : tooManyStops r.stop = false)
    (h2 : (r.temperature.isSome && r.top_p.isSome) = false)
    (h3 : ¬ r.stream = some true) (hs : isSuccessStatus s = false)
    (hc : isClientErrorStatus s = true) :
    r.submit ⟨some key, o⟩ parse (SendOutcome.response s b ch)
      = ⟨Except.error (OpenAIError.InvalidArgument ⟨"request", b⟩),
         some (chatHttpRequest r key o)⟩ := by
  simp [ChatCompletionRequest.submit, h1, h2, h3, hs, hc]

theorem ChatCompletionRequest.chat_submit_otherError (r : ChatCompletionRequest)
    (key : String) (o : Option String)
    (parse : String → Except String ChatCompletionResponse)
    (s : Nat) (b : String) (ch : List (Except ε (List Nat)))
    (h1 : tooManyStops r.stop = false)
    (h2 : (r.temperature.isSome && r.top_p.isSome) = false)
    (h3 : ¬ r.stream = some true) (hs : isSuccessStatus s = false)
    (hc : isClientErrorStatus s = false) :
    r.submit ⟨some key, o⟩ parse (SendOutcome.response s b ch)
      = ⟨Except.error (OpenAIError.Internal (InternalError.withMessage b)),
         some (chatHttpRequest r key o)⟩ := by
  simp [ChatCompletionRequest.submit, h1, h2, h3, hs, hc]

theorem ChatCompletionRequest.chat_streamOp_noKey (r : ChatCompletionRequest)
    (o : Option String) (net : SendOutcome ε) :
    r.streamOp ⟨none, o⟩ net
      = ⟨Except.error (OpenAIError.InvalidState
          ⟨"OPENAI_API_KEY env variable must be set"⟩), none⟩ := rfl

theorem ChatCompletionRequest.chat_streamOp_stops (r : ChatCompletionRequest)
    (key : String) (o : Option String) (net : SendOutcome ε)
    (h1 : tooManyStops r.stop = true) :
    r.streamOp ⟨some key, o⟩ net
      = ⟨Except.error (OpenAIError.InvalidArgument
          ⟨"stop", "You can only provide up to 4 stop sequences"⟩), none⟩ := by
  simp [ChatCompletionRequest.streamOp, h1]

theorem ChatCompletionRequest.chat_streamOp_temp (r : ChatCompletionRequest)
    (key : String) (o : Option String) (net : SendOutcome ε)
    (h1 : tooManyStops r.stop = false)
    (h2 : (r.temperature.isSome && r.top_p.isSome) = true) :
    r.streamOp ⟨some key, o⟩ net
      = ⟨Except.error (OpenAIError.InvalidArgument
          ⟨"temperature", "Use temperature or top_p but not both"⟩), none⟩ := by
  simp [ChatCompletionRequest.streamOp, h1, h2]

theorem ChatCompletionRequest.chat_streamOp_failure (r : ChatCompletionRequest)
    (key : String) (o : Option String) (e : ε)
    (h1 : tooManyStops r.stop = false)
    (h2 : (r.temperature.isSome && r.top_p.isSome) = false) :
    r.streamOp ⟨some key, o⟩ (SendOutcome.failure e)
      = ⟨Except.error (OpenAIError.Internal (InternalError.fromSource e)),
         some (chatHttpRequest r key o)⟩ := by
  simp [ChatCompletionRequest.streamOp, h1, h2]

theorem ChatCompletionRequest.chat_streamOp_success (r : ChatCompletionRequest)
    (key : String) (o : Option String) (s : Nat) (b : String)
    (ch : List (Except ε (List Nat)))
    (h1 : tooManyStops r.stop = false)
    (h2 : (r.temperature.isSome && r.top_p.isSome) = false)
    (hs : isSuccessStatus s = true) :
    r.streamOp ⟨some key, o⟩ (SendOutcome.response s b ch)
      = ⟨Except.ok (ChatCompletionResponseStream.new ch),
         some (chatHttpRequest r key o)⟩ := by
  simp [ChatCompletionRequest.streamOp, h1, h2, hs]

theorem ChatCompletionRequest.chat_streamOp_clientError (r : ChatCompletionRequest)
    (key : String) (o : Option String) (s : Nat) (b : String)
    (ch : List (Except ε (List Nat)))
    (h1 : tooManyStops r.stop = false)
    (h2 : (r.temperature.isSome && r.top_p.isSome) = false)
    (hs : isSuccessStatus s = false) (hc : isClientErrorStatus s = true) :
    r.streamOp ⟨some key, o⟩ (SendOutcome.response s b ch)
      = ⟨Except.error (OpenAIError.InvalidArgument ⟨"request", b⟩),
         some (chatHttpRequest r key o)⟩ := by
  simp [ChatCompletionRequest.streamOp, h1, h2, hs, hc]

theorem ChatCompletionRequest.chat_streamOp_otherError (r : ChatCompletionRequest)
    (key : String) (o : Option String) (s : Nat) (b : String)
    (ch : List (Except ε (List Nat)))
    (h1 : tooManyStops r.stop = false)
    (h2 : (r.temperature.isSome && r.top_p.isSome) = false)
    (hs : isSuccessStatus s = false) (hc : isClientErrorStatus s = false) :
    r.streamOp ⟨some key, o⟩ (SendOutcome.response s b ch)
      = ⟨Except.error (OpenAIError.Internal (InternalError.withMessage b)),
         some (chatHttpRequest r key o)⟩ := by
  simp [ChatCompletionRequest.streamOp, h1, h2, hs, hc]

theorem clientError_not_success (s : Nat) (h : isClientErrorStatus s = true) :
    isSuccessStatus s = false := by
  simp only [isClientErrorStatus, Bool.and_eq_true, decide_eq_true_eq] at h
  simp only [isSuccessStatus, Bool.and_eq_false_iff, decide_eq_false_iff_not]
  omega

theorem CompletionReachable.stream_none (r : CompletionRequest)
    (h : CompletionReachable r) : r.stream = none := by
  induction h <;>
    simp_all [CompletionRequest.new, CompletionRequest.with_suffix,
      CompletionRequest.with_max_tokens, CompletionRequest.with_temperature,
      CompletionRequest.with_top_p, CompletionRequest.with_n,
      CompletionRequest.with_logprobs, CompletionRequest.with_echo,
      CompletionRequest.with_stop, CompletionRequest.with_stops,
      CompletionRequest.with_presence_penalty,
      CompletionRequest.with_frequency_penalty, CompletionRequest.with_best_of,
      CompletionRequest.with_logit_bias, CompletionRequest.with_user]

theorem ChatCompletionReachable.chat_stream_none (r : ChatCompletionRequest)
    (h : ChatCompletionReachable r) : r.stream = none := by
  induction h <;>
    simp_all [ChatCompletionRequest.new, ChatCompletionRequest.with_max_tokens,
      ChatCompletionRequest.with_temperature, ChatCompletionRequest.with_top_p,
      ChatCompletionRequest.with_n, ChatCompletionRequest.with_stop,
      ChatCompletionRequest.with_stops,
      ChatCompletionRequest.with_presence_penalty,
      ChatCompletionRequest.with_frequency_penalty,
      ChatCompletionRequest.with_logit_bias, ChatCompletionRequest.with_user]

theorem any_optField (nm n : String) (v : Option JsonVal) :
    ((optField nm v).any fun p => p.1 == n) = (v.isSome && (nm == n)) := by
  cases v <;> simp [optField]

theorem bodyHasField_serializeCompletion_stream (r : CompletionRequest) :
    bodyHasField (serializeCompletionRequest r) "stream" = r.stream.isSome := by
  simp [bodyHasField, serializeCompletionRequest, List.any_append, any_optField]

theorem bodyHasField_serializeChat_stream (r : ChatCompletionRequest) :
    bodyHasField (serializeChatCompletionRequest r) "stream" = r.stream.isSome := by
  simp [bodyHasField, serializeChatCompletionRequest, List.any_append, any_optField]

theorem buildHeaders_no_org (key : String) :
    ((buildHeaders key none).any fun p => p.1 == "OpenAI-Organization") = false := by
  simp [buildHeaders]

theorem CompletionRequest.submit_result_org (r : CompletionRequest) (key : String)
    (o o' : Option String) (parse : String → Except String CompletionResponse)
    (net : SendOutcome ε) :
    (r.submit ⟨some key, o⟩ parse net).result
      = (r.submit ⟨some key, o'⟩ parse net).result := by
  cases h1 : tooManyStops r.stop
  · cases h2 : (r.temperature.isSome && r.top_p.isSome)
    · by_cases h3 : r.stream = some true
      · rw [CompletionRequest.submit_streamFlag r key o parse net h1 h2 h3,
          CompletionRequest.submit_streamFlag r key o' parse net h1 h2 h3]
      · cases net with
        | failure e =>
          rw [CompletionRequest.submit_failure r key o parse e h1 h2 h3,
            CompletionRequest.submit_failure r key o' parse e h1 h2 h3]
        | response s b ch =>
          cases hs : isSuccessStatus s
          · cases hc : isClientErrorStatus s
            · rw [CompletionRequest.submit_otherError r key o parse s b ch h1 h2 h3 hs hc,
                CompletionRequest.submit_otherError r key o' parse s b ch h1 h2 h3 hs hc]
            · rw [CompletionRequest.submit_clientError r key o parse s b ch h1 h2 h3 hs hc,
                CompletionRequest.submit_clientError r key o' parse s b ch h1 h2 h3 hs hc]
          · rw [CompletionRequest.submit_success r key o parse s b ch h1 h2 h3 hs,
              CompletionRequest.submit_success r key o' parse s b ch h1 h2 h3 hs]
    · rw [CompletionRequest.submit_temp r key o parse net h1 h2,
        CompletionRequest.submit_temp r key o' parse net h1 h2]
  · rw [CompletionRequest.submit_stops r key o parse net h1,
      CompletionRequest.submit_stops r key o' parse net h1]

theorem CompletionRequest.streamOp_result_org (r : CompletionRequest) (key : String)
    (o o' : Option String) (net : SendOutcome ε) :
    (r.streamOp ⟨some key, o⟩ net).result = (r.streamOp ⟨some key, o'⟩ net).result := by
  cases h1 : tooManyStops r.stop
  · cases h2 : (r.temperature.isSome && r.top_p.isSome)
    · cases net with
      | failure e =>
        rw [CompletionRequest.streamOp_failure r key o e h1 h2,
          CompletionRequest.streamOp_failure r key o' e h1 h2]
      | response s b ch =>
        cases hs : isSuccessStatus s
        · cases hc : isClientErrorStatus s
          · rw [CompletionRequest.streamOp_otherError r key o s b ch h1 h2 hs hc,
              CompletionRequest.streamOp_otherError r key o' s b ch h1 h2 hs hc]
          · rw [CompletionRequest.streamOp_clientError r key o s b ch h1 h2 hs hc,
              CompletionRequest.streamOp_clientError r key o' s b ch h1 h2 hs hc]
        · rw [CompletionRequest.streamOp_success r key o s b ch h1 h2 hs,
            CompletionRequest.streamOp_success r key o' s b ch h1 h2 hs]
    · rw [CompletionRequest.streamOp_temp r key o net h1 h2,
        CompletionRequest.streamOp_temp r key o' net h1 h2]
  · rw [CompletionRequest.streamOp_stops r key o net h1,
      CompletionRequest.streamOp_stops r key o' net h1]

theorem ChatCompletionRequest.chat_submit_result_org (r : ChatCompletionRequest)
    (key : String) (o o' : Option String)
    (parse : String → Except String ChatCompletionResponse) (net : SendOutcome ε) :
    (r.submit ⟨some key, o⟩ parse net).result
      = (r.submit ⟨some key, o'⟩ parse net).result := by
  cases h1 : tooManyStops r.stop
  · cases h2 : (r.temperature.isSome && r.top_p.isSome)
    · by_cases h3 : r.stream = some true
      · rw [ChatCompletionRequest.chat_submit_streamFlag r key o parse net h1 h2 h3,
          ChatCompletionRequest.chat_submit_streamFlag r key o' parse net h1 h2 h3]
      · cases net with
        | failure e =>
          rw [ChatCompletionRequest.chat_submit_failure r key o parse e h1 h2 h3,
            ChatCompletionRequest.chat_submit_failure r key o' parse e h1 h2 h3]
        | response s b ch =>
          cases hs : isSuccessStatus s
          · cases hc : isClientErrorStatus s
            · rw [ChatCompletionRequest.chat_submit_otherError r key o parse s b ch h1 h2 h3 hs hc,
                ChatCompletionRequest.chat_submit_otherError r key o' parse s b ch h1 h2 h3 hs hc]
            · rw [ChatCompletionRequest.chat_submit_clientError r key o parse s b ch h1 h2 h3 hs hc,
                ChatCompletionRequest.chat_submit_clientError r key o' parse s b ch h1 h2 h3 hs hc]
          · rw [ChatCompletionRequest.chat_submit_success r key o parse s b ch h1 h2 h3 hs,
              ChatCompletionRequest.chat_submit_success r key o' parse s b ch h1 h2 h3 hs]
    · rw [ChatCompletionRequest.chat_submit_temp r key o parse net h1 h2,
        ChatCompletionRequest.chat_submit_temp r key o' parse net h1 h2]
  · rw [ChatCompletionRequest.chat_submit_stops r key o parse net h1,
      ChatCompletionRequest.chat_submit_stops r key o' parse net h1]

theorem ChatCompletionRequest.chat_streamOp_result_org (r : ChatCompletionRequest)
    (key : String) (o o' : Option String) (net : SendOutcome ε) :
    (r.streamOp ⟨some key, o⟩ net).result = (r.streamOp ⟨some key, o'⟩ net).result := by
  cases h1 : tooManyStops r.stop
  · cases h2 : (r.temperature.isSome && r.top_p.isSome)
    · cases net with
      | failure e =>
        rw [ChatCompletionRequest.chat_streamOp_failure r key o e h1 h2,
          ChatCompletionRequest.chat_streamOp_failure r key o' e h1 h2]
      | response s b ch =>
        cases hs : isSuccessStatus s
        · cases hc : isClientErrorStatus s
          · rw [ChatCompletionRequest.chat_streamOp_otherError r key o s b ch h1 h2 hs hc,
              ChatCompletionRequest.chat_streamOp_otherError r key o' s b ch h1 h2 hs hc]
          · rw [ChatCompletionRequest.chat_streamOp_clientError r key o s b ch h1 h2 hs hc,
              ChatCompletionRequest.chat_streamOp_clientError r key o' s b ch h1 h2 hs hc]
        · rw [ChatCompletionRequest.chat_streamOp_success r key o s b ch h1 h2 hs,
            ChatCompletionRequest.chat_streamOp_success r key o' s b ch h1 h2 hs]
    · rw [ChatCompletionRequest.chat_streamOp_temp r key o net h1 h2,
        ChatCompletionRequest.chat_streamOp_temp r key o' net h1 h2]
  · rw [ChatCompletionRequest.chat_streamOp_stops r key o net h1,
      ChatCompletionRequest.chat_streamOp_stops r key o' net h1]

theorem CompletionRequest.submit_sent (r : CompletionRequest) (key : String)
    (o : Option String) (parse : String → Except String CompletionResponse)
    (net : SendOutcome ε) (req : HttpRequest)
    (h : (r.submit ⟨some key, o⟩ parse net).sent = some req) :
    req = completionHttpRequest r key o := by
  cases h1 : tooManyStops r.stop
  · cases h2 : (r.temperature.isSome && r.top_p.isSome)
    · by_cases h3 : r.stream = some true
      · rw [CompletionRequest.submit_streamFlag r key o parse net h1 h2 h3] at h
        exact Option.noConfusion h
      · cases net with
        | failure e =>
          rw [CompletionRequest.submit_failure r key o parse e h1 h2 h3] at h
          exact (Option.some.inj h).symm
        | response s b ch =>
          cases hs : isSuccessStatus s
          · cases hc : isClientErrorStatus s
            · rw [CompletionRequest.submit_otherError r key o parse s b ch h1 h2 h3 hs hc] at h
              exact (Option.some.inj h).symm
            · rw [CompletionRequest.submit_clientError r key o parse s b ch h1 h2 h3 hs hc] at h
              exact (Option.some.inj h).symm
          · rw [CompletionRequest.submit_success r key o parse s b ch h1 h2 h3 hs] at h
            exact (Option.some.inj h).symm
    · rw [CompletionRequest.submit_temp r key o parse net h1 h2] at h
      exact Option.noConfusion h
  · rw [CompletionRequest.submit_stops r key o parse net h1] at h
    exact Option.noConfusion h

theorem CompletionRequest.streamOp_sent (r : CompletionRequest) (key : String)
    (o : Option String) (net : SendOutcome ε) (req : HttpRequest)
    (h : (r.streamOp ⟨some key, o⟩ net).sent = some req) :
    req = completionHttpRequest r key o := by
  cases h1 : tooManyStops r.stop
  · cases h2 : (r.temperature.isSome && r.top_p.isSome)
    · cases net with
      | failure e =>
        rw [CompletionRequest.streamOp_failure r key o e h1 h2] at h
        exact (Option.some.inj h).symm
      | response s b ch =>
        cases hs : isSuccessStatus s
        · cases hc : isClientErrorStatus s
          · rw [CompletionRequest.streamOp_otherError r key o s b ch h1 h2 hs hc] at h
            exact (Option.some.inj h).symm
          · rw [CompletionRequest.streamOp_clientError r key o s b ch h1 h2 hs hc] at h
            exact (Option.some.inj h).symm
        · rw [CompletionRequest.streamOp_success r key o s b ch h1 h2 hs] at h
          exact (Option.some.inj h).symm
    · rw [CompletionRequest.streamOp_temp r key o net h1 h2] at h
      exact Option.noConfusion h
  · rw [CompletionRequest.streamOp_stops r key o net h1] at h
    exact Option.noConfusion h

theorem ChatCompletionRequest.chat_submit_sent (r : ChatCompletionRequest) (key : String)
    (o : Option String) (parse : String → Except String ChatCompletionResponse)
    (net : SendOutcome ε) (req : HttpRequest)
    (h : (r.submit ⟨some key, o⟩ parse net).sent = some req) :
    req = chatHttpRequest r key o := by
  cases h1 : tooManyStops r.stop
  · cases h2 : (r.temperature.isSome && r.top_p.isSome)
    · by_cases h3 : r.stream = some true
      · rw [ChatCompletionRequest.chat_submit_streamFlag r key o parse net h1 h2 h3] at h
        exact Option.noConfusion h
      · cases net with
        | failure e =>
          rw [ChatCompletionRequest.chat_submit_failure r key o parse e h1 h2 h3] at h
          exact (Option.some.inj h).symm
        | response s b ch =>
          cases hs : isSuccessStatus s
          · cases hc : isClientErrorStatus s
            · rw [ChatCompletionRequest.chat_submit_otherError r key o parse s b ch h1 h2 h3 hs hc] at h
              exact (Option.some.inj h).symm
            · rw [ChatCompletionRequest.chat_submit_clientError r key o parse s b ch h1 h2 h3 hs hc] at h
              exact (Option.some.inj h).symm
          · rw [ChatCompletionRequest.chat_submit_success r key o parse s b ch h1 h2 h3 hs] at h
            exact (Option.some.inj h).symm
    · rw [ChatCompletionRequest.chat_submit_temp r key o parse net h1 h2] at h
      exact Option.noConfusion h
  · rw [ChatCompletionRequest.chat_submit_stops r key o parse net h1] at h
    exact Option.noConfusion h

theorem ChatCompletionRequest.chat_streamOp_sent (r : ChatCompletionRequest) (key : String)
    (o : Option String) (net : SendOutcome ε) (req : HttpRequest)
    (h : (r.streamOp ⟨some key, o⟩ net).sent = some req) :
    req = chatHttpRequest r key o := by
  cases h1 : tooManyStops r.stop
  · cases h2 : (r.temperature.isSome && r.top_p.isSome)
    · cases net with
      | failure e =>
        rw [ChatCompletionRequest.chat_streamOp_failure r key o e h1 h2] at h
        exact (Option.some.inj h).symm
      | response s b ch =>
        cases hs : isSuccessStatus s
        · cases hc : isClientErrorStatus s
          · rw [ChatCompletionRequest.chat_streamOp_otherError r key o s b ch h1 h2 hs hc] at h
            exact (Option.some.inj h).symm
          · rw [ChatCompletionRequest.chat_streamOp_clientError r key o s b ch h1 h2 hs hc] at h
            exact (Option.some.inj h).symm
        · rw [ChatCompletionRequest.chat_streamOp_success r key o s b ch h1 h2 hs] at h
          exact (Option.some.inj h).symm
    · rw [ChatCompletionRequest.chat_streamOp_temp r key o net h1 h2] at h
      exact Option.noConfusion h
  · rw [ChatCompletionRequest.chat_streamOp_stops r key o net h1] at h
    exact Option.noConfusion h

/-- Claim C1: for every finite, error-free sequence of byte chunks, one
"get next" call appends every chunk that is not byte-for-byte equal to the
sentinel to a buffer, drains the stream to its end, and then returns
`Ok None` when the buffer is empty, and otherwise the deserialization of
the concatenated buffer, with deserialization failure surfaced as
`InvalidState` carrying the parser message — for both the completion and
the chat-completion stream handles. -/
theorem next_drains_and_decodes (ε : Type)
    (parseC : List Nat → Except String CompletionResponse)
    (parseH : List Nat → Except String ChatCompletionResponse)
    (chunks : List (List Nat)) :
    CompletionResponseStream.next parseC
        (CompletionResponseStream.new (ε := ε) (chunks.map Except.ok))
      = (decodeBuffer parseC (drainedBuffer chunks), ⟨[]⟩)
    ∧ ChatCompletionResponseStream.next parseH
        (ChatCompletionResponseStream.new (ε := ε) (chunks.map Except.ok))
      = (decodeBuffer parseH (drainedBuffer chunks), ⟨[]⟩) := by
  constructor <;>
    simp [CompletionResponseStream.next, ChatCompletionResponseStream.next,
      CompletionResponseStream.new, ChatCompletionResponseStream.new,
      responseStreamNext_okList]

/-- Claim C3: a "get next" call drains an error-free underlying stream to
completion on that single call; on a fully-drained handle it returns
`Ok None`, and calling it twice on a fully-drained handle returns
`Ok None` both times — for both stream handle types. -/
theorem next_full_drain_second_call_none (ε : Type)
    (parseC : List Nat → Except String CompletionResponse)
    (parseH : List Nat → Except String ChatCompletionResponse)
    (chunks : List (List Nat)) :
    ((CompletionResponseStream.next parseC
        (CompletionResponseStream.new (ε := ε) (chunks.map Except.ok))).2 = ⟨[]⟩
     ∧ (CompletionResponseStream.next parseC
          (CompletionResponseStream.new (ε := ε) [])).1 = Except.ok none
     ∧ (CompletionResponseStream.next parseC
          ((CompletionResponseStream.next parseC
            (CompletionResponseStream.new (ε := ε) [])).2)).1 = Except.ok none)
    ∧ ((ChatCompletionResponseStream.next parseH
          (ChatCompletionResponseStream.new (ε := ε) (chunks.map Except.ok))).2 = ⟨[]⟩
       ∧ (ChatCompletionResponseStream.next parseH
            (ChatCompletionResponseStream.new (ε := ε) [])).1 = Except.ok none
       ∧ (ChatCompletionResponseStream.next parseH
            ((ChatCompletionResponseStream.next parseH
              (ChatCompletionResponseStream.new (ε := ε) [])).2)).1 = Except.ok none) := by
  refine ⟨⟨?_, rfl, rfl⟩, ⟨?_, rfl, rfl⟩⟩ <;>
    simp [CompletionResponseStream.next, ChatCompletionResponseStream.next,
      CompletionResponseStream.new, ChatCompletionResponseStream.new,
      responseStreamNext_okList]

/-- Claim C4: if any chunk of the underlying stream fails to arrive,
"get next" aborts immediately with an `Internal` error wrapping the
transport error, and no partial result is returned — the result is the
same for every buffered prefix, so the accumulated bytes are discarded —
for both stream handle types. -/
theorem next_transport_error_aborts (ε : Type)
    (parseC : List Nat → Except String CompletionResponse)
    (parseH : List Nat → Except String ChatCompletionResponse)
    (pre : List (List Nat)) (e : ε) (rest : List (Except ε (List Nat))) :
    (CompletionResponseStream.next parseC
        (CompletionResponseStream.new (pre.map Except.ok ++ Except.error e :: rest))).1
      = Except.error (OpenAIError.Internal (InternalError.fromSource e))
    ∧ (ChatCompletionResponseStream.next parseH
        (ChatCompletionResponseStream.new (pre.map Except.ok ++ Except.error e :: rest))).1
      = Except.error (OpenAIError.Internal (InternalError.fromSource e)) := by
  constructor <;>
    simp [CompletionResponseStream.next, ChatCompletionResponseStream.next,
      CompletionResponseStream.new, ChatCompletionResponseStream.new,
      responseStreamNext_error]

/-- Claim C2: the log-probability flattening decoder iterates the array
elements in order and inserts every key/value pair into one accumulating
mapping, so a key occurring in a later array element overwrites an
earlier one (last-write-wins in array order); in particular flattening
the array of maps a to 1, b to 2, a to 3 yields the mapping with a to 3
and b to 2. -/
theorem flatten_log_probs_last_write_wins :
    (∀ (seq : List (List (String × Rat))) (k : String),
      (∀ m ∈ seq, (m.map Prod.fst).Nodup) →
      mapLookup (flatten_log_probs seq) k
        = seq.reverse.findSome? fun m => mapLookup m k)
    ∧ flatten_log_probs [[("a", 1)], [("b", 2)], [("a", 3)]]
        = [("a", 3), ("b", 2)] := by
  constructor
  · intro seq k h
    have hbase : mapLookup [] k = none := rfl
    have := mapLookup_foldl_insertAll seq [] k h
    rw [flatten_log_probs, this, hbase, orElseO_none_right]
  · decide

/-- Witness for C2 at the concrete array of the claim. -/
theorem flatten_log_probs_last_write_wins_witness :
    (∀ m ∈ [[("a", (1 : Rat))], [("b", 2)], [("a", 3)]], (m.map Prod.fst).Nodup)
    ∧ mapLookup (flatten_log_probs [[("a", 1)], [("b", 2)], [("a", 3)]]) "a"
        = ([[("a", (1 : Rat))], [("b", 2)], [("a", 3)]].reverse.findSome?
            fun m => mapLookup m "a") :=
  ⟨by decide,
   flatten_log_probs_last_write_wins.1 [[("a", 1)], [("b", 2)], [("a", 3)]] "a"
     (by decide)⟩

/-- Claim C5: with the API key present and local validation passing, the
transport error classification of submit is exactly: 2xx decodes the body
(decode failure is `InvalidState`), 4xx is `InvalidArgument` carrying the
body text, any other non-2xx status is `Internal` carrying the body text,
and a transport-level send failure is `Internal` wrapping the transport
error — for both the completion and chat-completion families. -/
theorem submit_status_branch_table (ε : Type) (key : String) (o : Option String)
    (r : CompletionRequest) (c : ChatCompletionRequest)
    (parseC : String → Except String CompletionResponse)
    (parseH : String → Except String ChatCompletionResponse)
    (s : Nat) (b : String) (ch ch' : List (Except ε (List Nat))) (e e' : ε)
    (hr1 : tooManyStops r.stop = false)
    (hr2 : (r.temperature.isSome && r.top_p.isSome) = false)
    (hr3 : ¬ r.stream = some true)
    (hc1 : tooManyStops c.stop = false)
    (hc2 : (c.temperature.isSome && c.top_p.isSome) = false)
    (hc3 : ¬ c.stream = some true) :
    ((isSuccessStatus s = true →
        (r.submit ⟨some key, o⟩ parseC (SendOutcome.response s b ch)).result
          = match parseC b with
            | Except.ok v => Except.ok v
            | Except.error err => Except.error (OpenAIError.InvalidState ⟨err⟩))
     ∧ (isClientErrorStatus s = true →
        (r.submit ⟨some key, o⟩ parseC (SendOutcome.response s b ch)).result
          = Except.error (OpenAIError.InvalidArgument ⟨"request", b⟩))
     ∧ (isSuccessStatus s = false → isClientErrorStatus s = false →
        (r.submit ⟨some key, o⟩ parseC (SendOutcome.response s b ch)).result
          = Except.error (OpenAIError.Internal (InternalError.withMessage b)))
     ∧ (r.submit ⟨some key, o⟩ parseC (SendOutcome.failure e)).result
          = Except.error (OpenAIError.Internal (InternalError.fromSource e)))
    ∧ ((isSuccessStatus s = true →
          (c.submit ⟨some key, o⟩ parseH (SendOutcome.response s b ch')).result
            = match parseH b with
              | Except.ok v => Except.ok v
              | Except.error err => Except.error (OpenAIError.InvalidState ⟨err⟩))
       ∧ (isClientErrorStatus s = true →
          (c.submit ⟨some key, o⟩ parseH (SendOutcome.response s b ch')).result
            = Except.error (OpenAIError.InvalidArgument ⟨"request", b⟩))
       ∧ (isSuccessStatus s = false → isClientErrorStatus s = false →
          (c.submit ⟨some key, o⟩ parseH (SendOutcome.response s b ch')).result
            = Except.error (OpenAIError.Internal (InternalError.withMessage b)))
       ∧ (c.submit ⟨some key, o⟩ parseH (SendOutcome.failure e')).result
            = Except.error (OpenAIError.Internal (InternalError.fromSource e'))) := by
  refine ⟨⟨?_, ?_, ?_, ?_⟩, ?_, ?_, ?_, ?_⟩
  · intro hs
    rw [CompletionRequest.submit_success r key o parseC s b ch hr1 hr2 hr3 hs]
  · intro hcl
    rw [CompletionRequest.submit_clientError r key o parseC s b ch hr1 hr2 hr3
      (clientError_not_success s hcl) hcl]
  · intro hs hcl
    rw [CompletionRequest.submit_otherError r key o parseC s b ch hr1 hr2 hr3 hs hcl]
  · rw [CompletionRequest.submit_failure r key o parseC e hr1 hr2 hr3]
  · intro hs
    rw [ChatCompletionRequest.chat_submit_success c key o parseH s b ch' hc1 hc2 hc3 hs]
  · intro hcl
    rw [ChatCompletionRequest.chat_submit_clientError c key o parseH s b ch' hc1 hc2 hc3
      (clientError_not_success s hcl) hcl]
  · intro hs hcl
    rw [ChatCompletionRequest.chat_submit_otherError c key o parseH s b ch' hc1 hc2 hc3 hs hcl]
  · rw [ChatCompletionRequest.chat_submit_failure c key o parseH e' hc1 hc2 hc3]

/-- Witness for C5: a 404 with body text surfaces as `InvalidArgument`
carrying that text, a 500 surfaces as `Internal` carrying the body text,
and a transport failure surfaces as `Internal` wrapping it. -/
theorem submit_status_branch_table_witness :
    (tooManyStops (CompletionRequest.new "m" "p").stop = false
     ∧ ((CompletionRequest.new "m" "p").temperature.isSome
        && (CompletionRequest.new "m" "p").top_p.isSome) = false
     ∧ ¬ (CompletionRequest.new "m" "p").stream = some true
     ∧ isClientErrorStatus 404 = true)
    ∧ ((CompletionRequest.new "m" "p").submit (⟨some "k", none⟩ : Env)
        (fun _ => Except.error "bad json")
        (SendOutcome.response 404 "bad request" ([] : List (Except Unit (List Nat))))).result
        = Except.error (OpenAIError.InvalidArgument ⟨"request", "bad request"⟩)
    ∧ ((CompletionRequest.new "m" "p").submit (⟨some "k", none⟩ : Env)
        (fun _ => Except.error "bad json")
        (SendOutcome.response 500 "oops" ([] : List (Except Unit (List Nat))))).result
        = Except.error (OpenAIError.Internal (InternalError.withMessage "oops"))
    ∧ ((ChatCompletionRequest.new "m" []).submit (⟨some "k", none⟩ : Env)
        (fun _ => Except.error "bad json")
        (SendOutcome.failure ())).result
        = Except.error (OpenAIError.Internal (InternalError.fromSource ())) :=
  ⟨⟨rfl, rfl, by decide, rfl⟩,
   (submit_status_branch_table Unit "k" none (CompletionRequest.new "m" "p")
      (ChatCompletionRequest.new "m" []) (fun _ => Except.error "bad json")
      (fun _ => Except.error "bad json") 404 "bad request" [] [] () ()
      rfl rfl (by decide) rfl rfl (by decide)).1.2.1 rfl,
   (submit_status_branch_table Unit "k" none (CompletionRequest.new "m" "p")
      (ChatCompletionRequest.new "m" []) (fun _ => Except.error "bad json")
      (fun _ => Except.error "bad json") 500 "oops" [] [] () ()
      rfl rfl (by decide) rfl rfl (by decide)).1.2.2.1 (by decide) (by decide),
   (submit_status_branch_table Unit "k" none (CompletionRequest.new "m" "p")
      (ChatCompletionRequest.new "m" []) (fun _ => Except.error "bad json")
      (fun _ => Except.error "bad json") 500 "oops" [] [] () ()
      rfl rfl (by decide) rfl rfl (by decide)).2.2.2.2⟩

/-- Claim C6: with the API key present, a builder that has both
temperature and top_p set, or more than 4 stop sequences, fails with
`InvalidArgument` on submit and on stream, before any network call
occurs — for both the completion and chat-completion families. -/
theorem validation_rejects_before_network (ε : Type) (key : String)
    (o : Option String) (r : CompletionRequest) (c : ChatCompletionRequest)
    (parseC : String → Except String CompletionResponse)
    (parseH : String → Except String ChatCompletionResponse)
    (net1 net2 net3 net4 : SendOutcome ε) :
    ((tooManyStops r.stop = true
        ∨ (r.temperature.isSome && r.top_p.isSome) = true) →
      isInvalidArgument (r.submit ⟨some key, o⟩ parseC net1).result = true
      ∧ (r.submit ⟨some key, o⟩ parseC net1).sent = none
      ∧ isInvalidArgument (r.streamOp ⟨some key, o⟩ net2).result = true
      ∧ (r.streamOp ⟨some key, o⟩ net2).sent = none)
    ∧ ((tooManyStops c.stop = true
        ∨ (c.temperature.isSome && c.top_p.isSome) = true) →
      isInvalidArgument (c.submit ⟨some key, o⟩ parseH net3).result = true
      ∧ (c.submit ⟨some key, o⟩ parseH net3).sent = none
      ∧ isInvalidArgument (c.streamOp ⟨some key, o⟩ net4).result = true
      ∧ (c.streamOp ⟨some key, o⟩ net4).sent = none) := by
  constructor
  · intro hv
    cases h1 : tooManyStops r.stop
    · have h2 : (r.temperature.isSome && r.top_p.isSome) = true := by
        rcases hv with hv | hv
        · rw [h1] at hv
          exact absurd hv (by simp)
        · exact hv
      rw [CompletionRequest.submit_temp r key o parseC net1 h1 h2,
        CompletionRequest.streamOp_temp r key o net2 h1 h2]
      exact ⟨rfl, rfl, rfl, rfl⟩
    · rw [CompletionRequest.submit_stops r key o parseC net1 h1,
        CompletionRequest.streamOp_stops r key o net2 h1]
      exact ⟨rfl, rfl, rfl, rfl⟩
  · intro hv
    cases h1 : tooManyStops c.stop
    · have h2 : (c.temperature.isSome && c.top_p.isSome) = true := by
        rcases hv with hv | hv
        · rw [h1] at hv
          exact absurd hv (by simp)
        · exact hv
      rw [ChatCompletionRequest.chat_submit_temp c key o parseH net3 h1 h2,
        ChatCompletionRequest.chat_streamOp_temp c key o net4 h1 h2]
      exact ⟨rfl, rfl, rfl, rfl⟩
    · rw [ChatCompletionRequest.chat_submit_stops c key o parseH net3 h1,
        ChatCompletionRequest.chat_streamOp_stops c key o net4 h1]
      exact ⟨rfl, rfl, rfl, rfl⟩

/-- Witness for C6: a completion builder with both temperature and top_p
set, and a chat builder with five stop sequences, are rejected with
`InvalidArgument` and nothing is sent. -/
theorem validation_rejects_before_network_witness :
    ((((CompletionRequest.new "m" "p").with_temperature 1).with_top_p 1).temperature.isSome
       && (((CompletionRequest.new "m" "p").with_temperature 1).with_top_p 1).top_p.isSome) = true
    ∧ tooManyStops ((ChatCompletionRequest.new "m" []).with_stops
        ["a", "b", "c", "d", "e"]).stop = true
    ∧ isInvalidArgument ((((CompletionRequest.new "m" "p").with_temperature 1).with_top_p 1).submit
        (⟨some "k", none⟩ : Env) (fun _ => Except.error "x")
        (SendOutcome.failure ())).result = true
    ∧ ((((CompletionRequest.new "m" "p").with_temperature 1).with_top_p 1).submit
        (⟨some "k", none⟩ : Env) (fun _ => Except.error "x")
        (SendOutcome.failure ())).sent = none
    ∧ isInvalidArgument (((ChatCompletionRequest.new "m" []).with_stops
        ["a", "b", "c", "d", "e"]).streamOp (⟨some "k", none⟩ : Env)
        (SendOutcome.failure ())).result = true
    ∧ (((ChatCompletionRequest.new "m" []).with_stops
        ["a", "b", "c", "d", "e"]).streamOp (⟨some "k", none⟩ : Env)
        (SendOutcome.failure ())).sent = none := by
  have h := validation_rejects_before_network Unit "k" none
    (((CompletionRequest.new "m" "p").with_temperature 1).with_top_p 1)
    ((ChatCompletionRequest.new "m" []).with_stops ["a", "b", "c", "d", "e"])
    (fun _ => Except.error "x") (fun _ => Except.error "x")
    (SendOutcome.failure ()) (SendOutcome.failure ())
    (SendOutcome.failure ()) (SendOutcome.failure ())
  have hR := h.1 (Or.inr (by decide))
  have hC := h.2 (Or.inl (by decide))
  exact ⟨by decide, by decide, hR.1, hR.2.1, hC.2.2.1, hC.2.2.2⟩

/-- Claim C7: with the API key present, invoking the non-streaming submit
on a builder whose stream flag is `Some(true)` fails with
`InvalidArgument` and nothing is sent — for both families. -/
theorem submit_rejects_stream_flag (ε : Type) (key : String) (o : Option String)
    (r : CompletionRequest) (c : ChatCompletionRequest)
    (parseC : String → Except String CompletionResponse)
    (parseH : String → Except String ChatCompletionResponse)
    (net1 net3 : SendOutcome ε)
    (hr : r.stream = some true) (hc : c.stream = some true) :
    isInvalidArgument (r.submit ⟨some key, o⟩ parseC net1).result = true
    ∧ (r.submit ⟨some key, o⟩ parseC net1).sent = none
    ∧ isInvalidArgument (c.submit ⟨some key, o⟩ parseH net3).result = true
    ∧ (c.submit ⟨some key, o⟩ parseH net3).sent = none := by
  have hR : isInvalidArgument (r.submit ⟨some key, o⟩ parseC net1).result = true
      ∧ (r.submit ⟨some key, o⟩ parseC net1).sent = none := by
    cases h1 : tooManyStops r.stop
    · cases h2 : (r.temperature.isSome && r.top_p.isSome)
      · rw [CompletionRequest.submit_streamFlag r key o parseC net1 h1 h2 hr]
        exact ⟨rfl, rfl⟩
      · rw [CompletionRequest.submit_temp r key o parseC net1 h1 h2]
        exact ⟨rfl, rfl⟩
    · rw [CompletionRequest.submit_stops r key o parseC net1 h1]
      exact ⟨rfl, rfl⟩
  have hC : isInvalidArgument (c.submit ⟨some key, o⟩ parseH net3).result = true
      ∧ (c.submit ⟨some key, o⟩ parseH net3).sent = none := by
    cases h1 : tooManyStops c.stop
    · cases h2 : (c.temperature.isSome && c.top_p.isSome)
      · rw [ChatCompletionRequest.chat_submit_streamFlag c key o parseH net3 h1 h2 hc]
        exact ⟨rfl, rfl⟩
      · rw [ChatCompletionRequest.chat_submit_temp c key o parseH net3 h1 h2]
        exact ⟨rfl, rfl⟩
    · rw [ChatCompletionRequest.chat_submit_stops c key o parseH net3 h1]
      exact ⟨rfl, rfl⟩
  exact ⟨hR.1, hR.2, hC.1, hC.2⟩

/-- Witness for C7: builders whose stream flag is forced true are rejected
by submit with `InvalidArgument` and nothing is sent. -/
theorem submit_rejects_stream_flag_witness :
    ({ CompletionRequest.new "m" "p" with stream := some true } : CompletionRequest).stream
        = some true
    ∧ ({ ChatCompletionRequest.new "m" [] with stream := some true } : ChatCompletionRequest).stream
        = some true
    ∧ isInvalidArgument (({ CompletionRequest.new "m" "p" with stream := some true }
        : CompletionRequest).submit (⟨some "k", none⟩ : Env)
        (fun _ => Except.error "x") (SendOutcome.failure ())).result = true
    ∧ (({ CompletionRequest.new "m" "p" with stream := some true }
        : CompletionRequest).submit (⟨some "k", none⟩ : Env)
        (fun _ => Except.error "x") (SendOutcome.failure ())).sent = none := by
  have h := submit_rejects_stream_flag Unit "k" none
    { CompletionRequest.new "m" "p" with stream := some true }
    { ChatCompletionRequest.new "m" [] with stream := some true }
    (fun _ => Except.error "x") (fun _ => Except.error "x")
    (SendOutcome.failure ()) (SendOutcome.failure ()) rfl rfl
  exact ⟨rfl, rfl, h.1, h.2.1⟩

/-- Claim C8: when the required API key configuration is absent, every
submit and stream operation of both families fails with `InvalidState`
and nothing is sent; when the key is present, the optional organization
identifier being absent is silently omitted from the headers and is never
an error — the result is the same as with any organization present. -/
theorem missing_key_invalid_state_org_silent (ε : Type)
    (parseC : String → Except String CompletionResponse)
    (parseH : String → Except String ChatCompletionResponse)
    (r : CompletionRequest) (c : ChatCompletionRequest)
    (net1 net2 net3 net4 : SendOutcome ε) (o : Option String)
    (key org : String) :
    ((r.submit ⟨none, o⟩ parseC net1
        = ⟨Except.error (OpenAIError.InvalidState
            ⟨"OPENAI_API_KEY env variable must be set"⟩), none⟩)
     ∧ (r.streamOp ⟨none, o⟩ net2
        = ⟨Except.error (OpenAIError.InvalidState
            ⟨"OPENAI_API_KEY env variable must be set"⟩), none⟩)
     ∧ (c.submit ⟨none, o⟩ parseH net3
        = ⟨Except.error (OpenAIError.InvalidState
            ⟨"OPENAI_API_KEY env variable must be set"⟩), none⟩)
     ∧ (c.streamOp ⟨none, o⟩ net4
        = ⟨Except.error (OpenAIError.InvalidState
            ⟨"OPENAI_API_KEY env variable must be set"⟩), none⟩))
    ∧ ((r.submit ⟨some key, none⟩ parseC net1).result
          = (r.submit ⟨some key, some org⟩ parseC net1).result
       ∧ (r.streamOp ⟨some key, none⟩ net2).result
          = (r.streamOp ⟨some key, some org⟩ net2).result
       ∧ (c.submit ⟨some key, none⟩ parseH net3).result
          = (c.submit ⟨some key, some org⟩ parseH net3).result
       ∧ (c.streamOp ⟨some key, none⟩ net4).result
          = (c.streamOp ⟨some key, some org⟩ net4).result
       ∧ (∀ req, (r.submit ⟨some key, none⟩ parseC net1).sent = some req →
            (req.headers.any fun p => p.1 == "OpenAI-Organization") = false)
       ∧ (∀ req, (r.streamOp ⟨some key, none⟩ net2).sent = some req →
            (req.headers.any fun p => p.1 == "OpenAI-Organization") = false)
       ∧ (∀ req, (c.submit ⟨some key, none⟩ parseH net3).sent = some req →
            (req.headers.any fun p => p.1 == "OpenAI-Organization") = false)
       ∧ (∀ req, (c.streamOp ⟨some key, none⟩ net4).sent = some req →
            (req.headers.any fun p => p.1 == "OpenAI-Organization") = false)) := by
  refine ⟨⟨rfl, rfl, rfl, rfl⟩,
    CompletionRequest.submit_result_org r key none (some org) parseC net1,
    CompletionRequest.streamOp_result_org r key none (some org) net2,
    ChatCompletionRequest.chat_submit_result_org c key none (some org) parseH net3,
    ChatCompletionRequest.chat_streamOp_result_org c key none (some org) net4,
    ?_, ?_, ?_, ?_⟩
  · intro req h
    rw [CompletionRequest.submit_sent r key none parseC net1 req h]
    exact buildHeaders_no_org key
  · intro req h
    rw [CompletionRequest.streamOp_sent r key none net2 req h]
    exact buildHeaders_no_org key
  · intro req h
    rw [ChatCompletionRequest.chat_submit_sent c key none parseH net3 req h]
    exact buildHeaders_no_org key
  · intro req h
    rw [ChatCompletionRequest.chat_streamOp_sent c key none net4 req h]
    exact buildHeaders_no_org key

/-- Witness for C8: with no key nothing is sent and the result is
`InvalidState`; with a key and no organization, the sent request carries
no organization header. -/
theorem missing_key_invalid_state_org_silent_witness :
    ((CompletionRequest.new "m" "p").submit (⟨none, none⟩ : Env)
        (fun _ => Except.error "x") (SendOutcome.failure ())
      = ⟨Except.error (OpenAIError.InvalidState
          ⟨"OPENAI_API_KEY env variable must be set"⟩), none⟩)
    ∧ ((CompletionRequest.new "m" "p").submit (⟨some "k", none⟩ : Env)
        (fun _ => Except.error "x") (SendOutcome.failure ())).sent
      = some (completionHttpRequest (CompletionRequest.new "m" "p") "k" none)
    ∧ (((completionHttpRequest (CompletionRequest.new "m" "p") "k" none).headers.any
        fun p => p.1 == "OpenAI-Organization") = false) := by
  have h := missing_key_invalid_state_org_silent Unit
    (fun _ => Except.error "x") (fun _ => Except.error "x")
    (CompletionRequest.new "m" "p") (ChatCompletionRequest.new "m" [])
    (SendOutcome.failure ()) (SendOutcome.failure ())
    (SendOutcome.failure ()) (SendOutcome.failure ()) none "k" "org"
  exact ⟨h.1.1, rfl,
    h.2.2.2.2.2.1 (completionHttpRequest (CompletionRequest.new "m" "p") "k" none) rfl⟩

/-- Claim C9: the JSON body sent by the stream operation is the
serialization of the builder state at the time the body is attached —
identical to the body submit would send — because the stream flag is
mutated only after the body was attached; consequently, for every
publicly reachable builder state the serialized body contains no stream
field at all — for both families. -/
theorem stream_body_matches_submit (ε : Type) (env : Env)
    (parseC : String → Except String CompletionResponse)
    (parseH : String → Except String ChatCompletionResponse)
    (r : CompletionRequest) (c : ChatCompletionRequest)
    (net1 net2 net3 net4 : SendOutcome ε) :
    (∀ req, (r.streamOp env net2).sent = some req →
        req.body = serializeCompletionRequest r)
    ∧ (∀ req, (r.submit env parseC net1).sent = some req →
        req.body = serializeCompletionRequest r)
    ∧ (CompletionReachable r →
        bodyHasField (serializeCompletionRequest r) "stream" = false)
    ∧ (∀ req, (c.streamOp env net4).sent = some req →
        req.body = serializeChatCompletionRequest c)
    ∧ (∀ req, (c.submit env parseH net3).sent = some req →
        req.body = serializeChatCompletionRequest c)
    ∧ (ChatCompletionReachable c →
        bodyHasField (serializeChatCompletionRequest c) "stream" = false) := by
  obtain ⟨k, o⟩ := env
  refine ⟨?_, ?_, ?_, ?_, ?_, ?_⟩
  · intro req h
    cases k with
    | none =>
      rw [CompletionRequest.streamOp_noKey r o net2] at h
      exact Option.noConfusion h
    | some key =>
      rw [CompletionRequest.streamOp_sent r key o net2 req h]
      rfl
  · intro req h
    cases k with
    | none =>
      rw [CompletionRequest.submit_noKey r o parseC net1] at h
      exact Option.noConfusion h
    | some key =>
      rw [CompletionRequest.submit_sent r key o parseC net1 req h]
      rfl
  · intro h
    rw [bodyHasField_serializeCompletion_stream r, CompletionReachable.stream_none r h]
    rfl
  · intro req h
    cases k with
    | none =>
      rw [ChatCompletionRequest.chat_streamOp_noKey c o net4] at h
      exact Option.noConfusion h
    | some key =>
      rw [ChatCompletionRequest.chat_streamOp_sent c key o net4 req h]
      rfl
  · intro req h
    cases k with
    | none =>
      rw [ChatCompletionRequest.chat_submit_noKey c o parseH net3] at h
      exact Option.noConfusion h
    | some key =>
      rw [ChatCompletionRequest.chat_submit_sent c key o parseH net3 req h]
      rfl
  · intro h
    rw [bodyHasField_serializeChat_stream c, ChatCompletionReachable.chat_stream_none c h]
    rfl

/-- Witness for C9: for a freshly built completion request the stream
operation sends exactly the serialization of the builder, and a reachable
builder's serialized body has no stream field. -/
theorem stream_body_matches_submit_witness :
    ((CompletionRequest.new "m" "p").streamOp (⟨some "k", none⟩ : Env)
        (SendOutcome.response 200 "" ([] : List (Except Unit (List Nat))))).sent
      = some (completionHttpRequest (CompletionRequest.new "m" "p") "k" none)
    ∧ (completionHttpRequest (CompletionRequest.new "m" "p") "k" none).body
      = serializeCompletionRequest (CompletionRequest.new "m" "p")
    ∧ CompletionReachable (CompletionRequest.new "m" "p")
    ∧ bodyHasField (serializeCompletionRequest (CompletionRequest.new "m" "p"))
        "stream" = false := by
  have h := stream_body_matches_submit Unit (⟨some "k", none⟩ : Env)
    (fun _ => Except.error "x") (fun _ => Except.error "x")
    (CompletionRequest.new "m" "p") (ChatCompletionRequest.new "m" [])
    (SendOutcome.failure ())
    (SendOutcome.response 200 "" ([] : List (Except Unit (List Nat))))
    (SendOutcome.failure ()) (SendOutcome.failure ())
  exact ⟨rfl,
    h.1 (completionHttpRequest (CompletionRequest.new "m" "p") "k" none) rfl,
    CompletionReachable.new "m" "p",
    h.2.2.1 (CompletionReachable.new "m" "p")⟩

/-- Claim C10: the missing-API-key check takes precedence over local
argument validation: a builder that violates a local validation rule but
runs without the API key present gets `InvalidState`, not
`InvalidArgument`, from submit and stream of both families. -/
theorem missing_key_precedes_validation (ε : Type)
    (parseC : String → Except String CompletionResponse)
    (parseH : String → Except String ChatCompletionResponse)
    (r : CompletionRequest) (c : ChatCompletionRequest)
    (net1 net2 net3 net4 : SendOutcome ε) (o : Option String)
    (hr : tooManyStops r.stop = true
        ∨ (r.temperature.isSome && r.top_p.isSome) = true)
    (hc : tooManyStops c.stop = true
        ∨ (c.temperature.isSome && c.top_p.isSome) = true) :
    ((r.submit ⟨none, o⟩ parseC net1).result
        = Except.error (OpenAIError.InvalidState
            ⟨"OPENAI_API_KEY env variable must be set"⟩)
     ∧ isInvalidArgument (r.submit ⟨none, o⟩ parseC net1).result = false)
    ∧ ((r.streamOp ⟨none, o⟩ net2).result
        = Except.error (OpenAIError.InvalidState
            ⟨"OPENAI_API_KEY env variable must be set"⟩)
       ∧ isInvalidArgument (r.streamOp ⟨none, o⟩ net2).result = false)
    ∧ ((c.submit ⟨none, o⟩ parseH net3).result
        = Except.error (OpenAIError.InvalidState
            ⟨"OPENAI_API_KEY env variable must be set"⟩)
       ∧ isInvalidArgument (c.submit ⟨none, o⟩ parseH net3).result = false)
    ∧ ((c.streamOp ⟨none, o⟩ net4).result
        = Except.error (OpenAIError.InvalidState
            ⟨"OPENAI_API_KEY env variable must be set"⟩)
       ∧ isInvalidArgument (c.streamOp ⟨none, o⟩ net4).result = false) :=
  ⟨⟨rfl, rfl⟩, ⟨rfl, rfl⟩, ⟨rfl, rfl⟩, ⟨rfl, rfl⟩⟩

/-- Witness for C10: a completion builder with five stop sequences and a
chat builder with temperature and top_p both set, run without the key,
get `InvalidState`, not `InvalidArgument`. -/
theorem missing_key_precedes_validation_witness :
    tooManyStops ((CompletionRequest.new "m" "p").with_stops
        ["a", "b", "c", "d", "e"]).stop = true
    ∧ ((((ChatCompletionRequest.new "m" []).with_temperature 1).with_top_p 1).temperature.isSome
        && (((ChatCompletionRequest.new "m" []).with_temperature 1).with_top_p 1).top_p.isSome)
        = true
    ∧ (((CompletionRequest.new "m" "p").with_stops ["a", "b", "c", "d", "e"]).submit
        (⟨none, none⟩ : Env) (fun _ => Except.error "x")
        (SendOutcome.failure ())).result
      = Except.error (OpenAIError.InvalidState
          ⟨"OPENAI_API_KEY env variable must be set"⟩)
    ∧ isInvalidArgument ((((ChatCompletionRequest.new "m" []).with_temperature 1).with_top_p 1).streamOp
        (⟨none, none⟩ : Env) (SendOutcome.failure ())).result = false := by
  have h := missing_key_precedes_validation Unit
    (fun _ => Except.error "x") (fun _ => Except.error "x")
    ((CompletionRequest.new "m" "p").with_stops ["a", "b", "c", "d", "e"])
    (((ChatCompletionRequest.new "m" []).with_temperature 1).with_top_p 1)
    (SendOutcome.failure ()) (SendOutcome.failure ())
    (SendOutcome.failure ()) (SendOutcome.failure ()) none
    (Or.inl (by decide)) (Or.inr (by decide))
  exact ⟨by decide, by decide, h.1.1, h.2.2.2.2⟩
